import Mathlib

/-!
Verification development for the seanime-anki video-core Anime4K upscaling
pipeline managers.

The definitions below are a shallow embedding of:
- `video-core-anime-4k-manager.ts` (class `VideoCoreAnime4KManager`), and
- `video-core-anime-4k-comparison-manager.ts` (class
  `VideoCoreAnime4KComparisonManager`), and
- the comparison divider drag handler (`handlePointerMove`).

Modelling conventions:
- `Anime4KOption` values are runtime strings (the TypeScript type is a union of
  string literals, and settings arrive as strings at runtime).
- GPU objects (devices, contexts, textures, animation-frame handles) are
  modelled by identifiers (`Nat`) allocated from a per-side fresh counter
  `nextId`.  A ghost list `live` tracks the identifiers of the live
  (created, not yet destroyed) persistent input textures attributable to the
  raw-upscaler cache; `texCreated`/`texDestroyed` entries in the emitted event
  list record the order of `createTexture` / `.destroy()` calls.
- Times (`performance.now()` values, frame intervals) are rationals.
- The two manager classes duplicate their per-frame render loop, raw-cache
  recreation and per-side teardown logic line for line; those shared blocks
  are embedded once (`tickCore`, `rawBranchCore`, `destroyCore`) and wrapped
  by each manager, exactly mirroring the duplicated source.
- Asynchronous initialization (`_initialize` / `_initializeSide`) is modelled
  as an atomic step parameterized by an `InitEnv` describing the platform
  (GPU availability, current time); mid-initialization cancellation is not
  interleaved, matching the serialized option-setter usage described by the
  code (the awaited option setter).
- Event listener dispatch and callback invocation are modelled by an emitted
  `List Emitted`; DOM style fields other than `display` (visibility) and the
  canvas pixel size are not modelled (no claim mentions them).
-/

namespace A4K

/-- The `off` option string. -/
def optOff : String := "off"

/-- Preset option strings (from the `Anime4KOption` union). -/
def optModeA : String := "mode-a"

def optModeB : String := "mode-b"

def optModeC : String := "mode-c"

def optModeAA : String := "mode-aa"

def optModeBB : String := "mode-bb"

def optModeCA : String := "mode-ca"

/-- Raw upscaler option strings (from the `Anime4KOption` union). -/
def optCnn2xM : String := "cnn-2x-medium"

def optCnn2xVL : String := "cnn-2x-very-large"

def optDenoiseCnn2xVL : String := "denoise-cnn-2x-very-large"

def optCnn2xUL : String := "cnn-2x-ultra-large"

def optGan3xL : String := "gan-3x-large"

def optGan4xUUL : String := "gan-4x-ultra-large"

/-- Anime4K options are runtime strings (TS union of string literals). -/
abbrev Anime4KOption := String

/-- The six raw-mode options, in source order (`isRawUpscaler`'s array). -/
def rawOptions : List Anime4KOption :=
  [optCnn2xM, optCnn2xVL, optDenoiseCnn2xVL, optCnn2xUL, optGan3xL, optGan4xUUL]

/-- The six preset-mode options (the `Anime4KOption` union minus `off` and the
raw modes). -/
def presetOptions : List Anime4KOption :=
  [optModeA, optModeB, optModeC, optModeAA, optModeBB, optModeCA]

/-- `isRawUpscaler(option)`: membership in the raw-mode array
(manager lines 293-302, comparison lines 294-303). -/
def isRawUpscaler (o : Anime4KOption) : Bool :=
  rawOptions.contains o

/-- Tags for the `anime4k-webgpu` pipeline constructors used by the managers. -/
inductive PipelineKind
  | modeA
  | modeB
  | modeC
  | modeAA
  | modeBB
  | modeCA
  | cnnx2M
  | cnnx2VL
  | denoiseCNNx2VL
  | cnnx2UL
  | ganx3L
  | ganx4UUL
  | downscale
deriving DecidableEq, Repr

/-- `createPipeline` (manager lines 933-951) / `_createPipeline` (comparison
lines 804-822): preset constructor dispatch; default falls back to `ModeA`. -/
def createPipeline (o : Anime4KOption) : PipelineKind :=
  if o = optModeA then PipelineKind.modeA
  else if o = optModeB then PipelineKind.modeB
  else if o = optModeC then PipelineKind.modeC
  else if o = optModeAA then PipelineKind.modeAA
  else if o = optModeBB then PipelineKind.modeBB
  else if o = optModeCA then PipelineKind.modeCA
  else PipelineKind.modeA

/-- Message head of the raw-constructor throw. -/
def strUnknownRaw : String := "Unknown raw upscaler option: "

/-- `createRawUpscalerPipeline` (manager lines 953-972) /
`_createRawUpscalerPipeline` (comparison lines 824-843): raw constructor
dispatch; the default case throws synchronously (`Except.error`). -/
def createRawUpscalerPipeline (o : Anime4KOption) : Except String PipelineKind :=
  if o = optCnn2xM then Except.ok PipelineKind.cnnx2M
  else if o = optCnn2xVL then Except.ok PipelineKind.cnnx2VL
  else if o = optDenoiseCnn2xVL then Except.ok PipelineKind.denoiseCNNx2VL
  else if o = optCnn2xUL then Except.ok PipelineKind.cnnx2UL
  else if o = optGan3xL then Except.ok PipelineKind.ganx3L
  else if o = optGan4xUUL then Except.ok PipelineKind.ganx4UUL
  else Except.error (strUnknownRaw ++ o)

/-- JavaScript `String.prototype.includes`. -/
def strIncludes (s pat : String) : Bool :=
  decide (List.IsInfix pat.data s.data)

def strDestroyed : String := "destroyed"

def strLost : String := "lost"

def strRenderFrameError : String := "Render frame error: "

def strWebgpuNotSupported : String := "WebGPU not supported"

def strPreferredFormat : String := "preferred"

/-- `Math.floor(n / 4) * 4 || 4` (manager lines 817-825, comparison 679-687):
dimension floored to a multiple of 4, with 0 clamped up to 4. -/
def floorTo4 (n : Nat) : Nat :=
  if n / 4 * 4 = 0 then 4 else n / 4 * 4

/-- The modelled part of an `HTMLCanvasElement`: pixel size and whether
`style.display` is `"block"` (`visible = true`) or `"none"`. -/
structure Canvas where
  width : Nat
  height : Nat
  visible : Bool
deriving DecidableEq, Repr

/-- `CachedUpscalerResources` (manager lines 344-353, comparison 315-324). -/
structure CachedRes where
  inputTexture : Nat
  upscalerPipeline : PipelineKind
  downscalePipeline : PipelineKind
  nativeWidth : Nat
  nativeHeight : Nat
  targetWidth : Nat
  targetHeight : Nat
deriving DecidableEq, Repr

/-- `FrameDropState` (manager lines 334-342); times are rationals. -/
structure FrameDropState where
  enabled : Bool
  frameDropThreshold : Nat
  frameDropCount : Nat
  lastFrameTime : ℚ
  targetFrameTime : ℚ
  performanceGracePeriod : ℚ
  initTime : ℚ
deriving DecidableEq

/-- The per-output render state shared by the single manager's fields and the
comparison manager's `ComparisonSide` record (comparison lines 326-337), plus
the ghost fields `live` (live cache-attributable texture ids) and `nextId`
(fresh id source). -/
structure SideRes where
  option : Anime4KOption
  canvas : Option Canvas
  device : Option Nat
  context : Option Nat
  canvasFormat : Option String
  renderLoopId : Option Nat
  cachedResources : Option CachedRes
  abortController : Option Nat
  initialized : Bool
  live : List Nat
  nextId : Nat
deriving DecidableEq

/-- The state hint passed to `setOption` / `setOptions`. -/
structure StateHint where
  isMiniPlayer : Bool
  isPip : Bool
  seeking : Bool
deriving DecidableEq, Repr

/-- Video element readiness as observed by the render loop. -/
structure VideoState where
  paused : Bool
  seeking : Bool
  readyState : Nat
  videoWidth : Nat
  videoHeight : Nat
deriving DecidableEq, Repr

/-- Outcome of the fallible GPU work inside one render-tick `try` block:
`ok`, a throw before the pipeline branch (frame import), or a throw after the
pipeline work (blit / submit). -/
inductive FrameOutcome
  | ok
  | failEarly (msg : String)
  | failLate (msg : String)
deriving DecidableEq, Repr

/-- Observable effects: dispatched events, invoked callbacks, log lines and
GPU texture create/destroy calls. -/
inductive Emitted
  | destroyedEvent
  | optionChangedEvent (o : Anime4KOption)
  | errorEvent (msg : String)
  | canvasResizedEvent (w h : Nat)
  | canvasCreatedEvent
  | canvasCreatedSideEvent (left : Bool)
  | fallbackCallback (msg : String)
  | onOptionChangedCallback (o : Anime4KOption)
  | logError (msg : String)
  | texCreated (id : Nat)
  | texDestroyed (id : Nat)
  | presetPass (k : PipelineKind)
deriving DecidableEq

/-- Platform parameters consumed by one initialization attempt. -/
structure InitEnv where
  gpuSupported : Bool
  now : ℚ
deriving DecidableEq

/-- The catch block of a render tick (manager lines 921-927, comparison
788-794): log the error unless its message includes `"destroyed"` or
`"lost"`. -/
def catchEvents (msg : String) : List Emitted :=
  if strIncludes msg strDestroyed = true ∨ strIncludes msg strLost = true then []
  else [Emitted.logError (strRenderFrameError ++ msg)]

/-- `requestAnimationFrame(renderFrame)` at the end of a tick: stores a fresh
loop handle. -/
def reschedule (r : SideRes) : SideRes :=
  { r with renderLoopId := some r.nextId, nextId := r.nextId + 1 }

/-- The `needsRecreate` condition (manager lines 835-839, comparison
702-706). -/
def needsRecreate : Option CachedRes → Nat → Nat → Nat → Nat → Bool
  | none, _, _, _, _ => true
  | some c, nw, nh, tw, th =>
    (c.nativeWidth != nw) || (c.nativeHeight != nh) ||
      (c.targetWidth != tw) || (c.targetHeight != th)

/-- The raw-upscaler cache block of a render tick (manager lines 832-880,
comparison 699-747): on dimension mismatch the old input texture is destroyed,
a new input texture is created, the upscaler and downscale pipelines are
constructed, and the cache record is replaced.  A synchronous throw of the raw
constructor (only its default case throws) leaves the cache record untouched
and is returned as `some msg`. -/
def rawBranchCore (nw nh tw th : Nat) (r : SideRes) :
    SideRes × List Emitted × Option String :=
  if needsRecreate r.cachedResources nw nh tw th = true then
    let destroyEvs : List Emitted :=
      match r.cachedResources with
      | some c => [Emitted.texDestroyed c.inputTexture]
      | none => []
    let live1 : List Nat :=
      match r.cachedResources with
      | some c => r.live.erase c.inputTexture
      | none => r.live
    let newTex := r.nextId
    let evs := destroyEvs ++ [Emitted.texCreated newTex]
    match createRawUpscalerPipeline r.option with
    | Except.error msg =>
      ({ r with live := newTex :: live1, nextId := r.nextId + 1 }, evs, some msg)
    | Except.ok up =>
      let newCache : CachedRes :=
        { inputTexture := newTex, upscalerPipeline := up,
          downscalePipeline := PipelineKind.downscale,
          nativeWidth := nw, nativeHeight := nh,
          targetWidth := tw, targetHeight := th }
      ({ r with
          live := newTex :: live1, nextId := r.nextId + 1,
          cachedResources := some newCache }, evs, none)
  else (r, [], none)

/-- Body of the render-tick `try` block after the frame import: branch on
`isRawUpscaler` into the cached/raw path or the direct/preset path, then blit
and submit (manager lines 810-931, comparison 672-798).  `failLate` injects a
throw in the post-branch steps. -/
def tickBody (outcome : FrameOutcome) (nw nh tw th : Nat) (r : SideRes) :
    SideRes × List Emitted :=
  if isRawUpscaler r.option = true then
    match rawBranchCore nw nh tw th r with
    | (r1, evs, some msg) => (reschedule r1, evs ++ catchEvents msg)
    | (r1, evs, none) =>
      match outcome with
      | FrameOutcome.failLate msg => (reschedule r1, evs ++ catchEvents msg)
      | _ => (reschedule r1, evs)
  else
    let k := createPipeline r.option
    match outcome with
    | FrameOutcome.failLate msg =>
      (reschedule r, [Emitted.presetPass k] ++ catchEvents msg)
    | _ => (reschedule r, [Emitted.presetPass k])

/-- One render-loop iteration (`_renderFrame`, manager lines 786-931; the
`renderFrame` closure of `_startRenderLoop`, comparison lines 647-798):
resource guard (returns without rescheduling), not-ready guards (reschedule
only), then the guarded `try`/`catch` body. -/
def tickCore (video : VideoState) (outcome : FrameOutcome) (r : SideRes) :
    SideRes × List Emitted :=
  match r.device, r.context, r.canvas, r.canvasFormat with
  | some _, some _, some cv, some _ =>
    if video.paused = true ∨ video.seeking = true ∨ video.readyState < 2 then
      (reschedule r, [])
    else if video.videoWidth = 0 ∨ video.videoHeight = 0 ∨
        cv.width = 0 ∨ cv.height = 0 then
      (reschedule r, [])
    else
      match outcome with
      | FrameOutcome.failEarly msg => (reschedule r, catchEvents msg)
      | _ =>
        tickBody outcome (floorTo4 video.videoWidth) (floorTo4 video.videoHeight)
          (floorTo4 cv.width) (floorTo4 cv.height) r
  | _, _, _, _ => (r, [])

/-- The per-side teardown shared by `destroy` (manager lines 548-596, resource
portion) and `_destroySide` (comparison lines 845-883): cancel the render
loop, destroy the cached input texture, unconfigure and drop the context,
remove the canvas, destroy the device, abort initialization, clear the
format. -/
def destroyCore (r : SideRes) : SideRes × List Emitted :=
  let texEvs : List Emitted :=
    match r.cachedResources with
    | some c => [Emitted.texDestroyed c.inputTexture]
    | none => []
  let live1 : List Nat :=
    match r.cachedResources with
    | some c => r.live.erase c.inputTexture
    | none => r.live
  ({ r with
      initialized := false,
      renderLoopId := none,
      live := live1,
      cachedResources := none,
      context := none,
      canvas := none,
      device := none,
      abortController := none,
      canvasFormat := none }, texEvs)

/-- Specification of the ghost `live` list: exactly the cached input texture,
when present. -/
def cachedLive : Option CachedRes → List Nat
  | some c => [c.inputTexture]
  | none => []

/-- Side invariant: the live cache-attributable textures are exactly the one
held by the cache record. -/
def InvSide (r : SideRes) : Prop :=
  r.live = cachedLive r.cachedResources

/-- State of one `VideoCoreAnime4KManager` (class fields, lines 355-381).
`side` collects the per-output fields (`canvas`, `_currentOption`,
`_webgpuResources.device`, `_context`, `_canvasFormat`, `_renderLoopId`,
`_cachedResources`, `_abortController`, `_initialized`). -/
structure MState where
  side : SideRes
  frameDrop : FrameDropState
  boxSize : Nat × Nat
deriving DecidableEq

/-- Initial field values of a freshly constructed manager. -/
def mInit : MState :=
  { side :=
      { option := optOff, canvas := none, device := none, context := none,
        canvasFormat := none, renderLoopId := none, cachedResources := none,
        abortController := none, initialized := false, live := [], nextId := 0 },
    frameDrop :=
      { enabled := true, frameDropThreshold := 5, frameDropCount := 0,
        lastFrameTime := 0, targetFrameTime := 1000 / 16,
        performanceGracePeriod := 1000, initTime := 0 },
    boxSize := (0, 0) }

/-- `getCurrentOption()` (lines 403-405). -/
def getCurrentOption (s : MState) : Anime4KOption :=
  s.side.option

/-- `destroy()` (lines 548-596): per-side teardown plus frame-drop counter
reset; dispatches a `destroyed` event. -/
def destroy (s : MState) : MState × List Emitted :=
  let rt := destroyCore s.side
  ({ s with
      side := rt.1,
      frameDrop :=
        { s.frameDrop with frameDropCount := 0, lastFrameTime := 0 } },
   rt.2 ++ [Emitted.destroyedEvent])

/-- `_hideCanvas()` (lines 1068-1073): `canvas.style.display = "none"`. -/
def hideCanvas (s : MState) : MState :=
  match s.side.canvas with
  | some c =>
    { s with side := { s.side with canvas := some { c with visible := false } } }
  | none => s

/-- `_showCanvas()` (lines 1075-1080): `canvas.style.display = "block"`. -/
def showCanvas (s : MState) : MState :=
  match s.side.canvas with
  | some c =>
    { s with side := { s.side with canvas := some { c with visible := true } } }
  | none => s

/-- `_isCanvasHidden()` (lines 1082-1084). -/
def isCanvasHidden (s : MState) : Bool :=
  match s.side.canvas with
  | some c => !c.visible
  | none => false

/-- `_initialize()` + `_createCanvas()` + `_startRendering()` (lines 599-641,
686-708, 711-783) as one atomic step.  Returns the new state, emitted events,
and `some msg` when the sequence threw (GPU unsupported).  A successful run
creates the canvas at the current box size, acquires device, context and
preferred format, announces the canvas, and starts the render loop. -/
def initializeStep (env : InitEnv) (s : MState) : MState × List Emitted × Option String :=
  if s.side.initialized = true ∨ s.side.option = optOff then (s, [], none)
  else
    let evs := [Emitted.optionChangedEvent s.side.option]
    let r0 := { s.side with abortController := some s.side.nextId, nextId := s.side.nextId + 1 }
    let s0 : MState :=
      { s with
          side := r0,
          frameDrop :=
            { s.frameDrop with
                frameDropCount := 0, initTime := env.now,
                lastFrameTime := 0 } }
    if env.gpuSupported = false then (s0, evs, some strWebgpuNotSupported)
    else
      let r1 : SideRes :=
        { r0 with
            canvas := some { width := s.boxSize.1, height := s.boxSize.2, visible := true },
            device := some r0.nextId,
            context := some (r0.nextId + 1),
            renderLoopId := some (r0.nextId + 2),
            nextId := r0.nextId + 3,
            canvasFormat := some strPreferredFormat,
            initialized := true }
      ({ s0 with side := r1 }, evs ++ [Emitted.canvasCreatedEvent], none)

/-- `setOption("off")` without a state hint, specialized (used by
`_handleError` and `_handlePerformanceFallback`, which re-enter
`this.setOption("off")`). -/
def setOptionOff (s : MState) : MState × List Emitted :=
  let previousOption := s.side.option
  let s1 : MState := { s with side := { s.side with option := optOff } }
  if previousOption ≠ optOff then destroy s1
  else if s1.boxSize.1 = 0 ∨ s1.boxSize.2 = 0 then (s1, [])
  else if s1.side.canvas.isSome = true ∧ isCanvasHidden s1 = true then (showCanvas s1, [])
  else if s1.side.canvas = none then (s1, [Emitted.onOptionChangedCallback optOff])
  else (s1, [])

/-- Message head used by `_handleError`'s fallback callback. -/
def strAnime4kHead : String := "Anime4K: "

/-- `_handleError(message)` (lines 1031-1038): fallback callback, error event,
`setOption("off")`, option-changed callback. -/
def handleError (msg : String) (s : MState) : MState × List Emitted :=
  let rt := setOptionOff s
  (rt.1,
    [Emitted.fallbackCallback (strAnime4kHead ++ msg), Emitted.errorEvent msg] ++
      rt.2 ++ [Emitted.onOptionChangedCallback optOff])

/-- The part of `setOption` after the state-hint dispatch (lines 517-542):
box-size guard, show-if-hidden, reinitialize on option change or missing
canvas (destroying the previous instance first), with initialization errors
routed to `_handleError`. -/
def setOptionMain (o previousOption : Anime4KOption) (env : InitEnv) (s1 : MState) :
    MState × List Emitted :=
  if s1.boxSize.1 = 0 ∨ s1.boxSize.2 = 0 then (s1, [])
  else if s1.side.canvas.isSome = true ∧ isCanvasHidden s1 = true then (showCanvas s1, [])
  else if previousOption ≠ o ∨ s1.side.canvas = none then
    let d := if previousOption ≠ optOff then destroy s1 else (s1, [])
    match initializeStep env d.1 with
    | (s3, evs3, some msg) =>
      let h := handleError msg s3
      (h.1, d.2 ++ evs3 ++ h.2 ++ [Emitted.onOptionChangedCallback o])
    | (s3, evs3, none) =>
      (s3, d.2 ++ evs3 ++ [Emitted.onOptionChangedCallback o])
  else (s1, [])

/-- `setOption(option, state?)` (lines 486-543): records the option, then
dispatches on off-transition, mini-player/PiP (destroy when a session
existed), seeking (hide only), and otherwise the normal path. -/
def setOption (o : Anime4KOption) (hint : Option StateHint) (env : InitEnv) (s : MState) :
    MState × List Emitted :=
  let previousOption := s.side.option
  let s1 : MState := { s with side := { s.side with option := o } }
  if previousOption ≠ o ∧ o = optOff then destroy s1
  else
    match hint with
    | some st =>
      if st.isMiniPlayer = true ∨ st.isPip = true then
        if previousOption ≠ optOff then destroy s1 else (s1, [])
      else if st.seeking = true then (hideCanvas s1, [])
      else setOptionMain o previousOption env s1
    | none => setOptionMain o previousOption env s1

/-- `_renderFrame` (lines 786-931) acting on the manager state. -/
def renderFrame (video : VideoState) (outcome : FrameOutcome) (s : MState) :
    MState × List Emitted :=
  let rt := tickCore video outcome s.side
  ({ s with side := rt.1 }, rt.2)

/-- `resize()` / `updateCanvasSize()` (lines 445-473): store the measured
content box, resize the canvas if present, dispatch `canvasresized`.
`w`/`h` stand for the computed rendered-video content size (or the fallback
value). -/
def resize (w h : Nat) (s : MState) : MState × List Emitted :=
  ({ s with
      boxSize := (w, h),
      side :=
        { s.side with
            canvas := Option.map (fun c => { c with width := w, height := h }) s.side.canvas } },
   [Emitted.canvasResizedEvent w h])

/-- Message of the frame-drop fallback notification. -/
def perfMsg : String := "Performance degraded. Turning off Anime4K."

/-- `_detectFrameDrops` (lines 986-1019) combined with
`_handlePerformanceFallback` (lines 1021-1029), as one governor tick at time
`now`. -/
def govTick (now : ℚ) (env : InitEnv) (s : MState) : MState × List Emitted :=
  if s.side.option = optOff then (s, [])
  else if now - s.frameDrop.initTime < s.frameDrop.performanceGracePeriod then
    ({ s with frameDrop := { s.frameDrop with lastFrameTime := now } }, [])
  else if 0 < s.frameDrop.lastFrameTime then
    if s.frameDrop.targetFrameTime * 1.5 < now - s.frameDrop.lastFrameTime then
      if s.frameDrop.frameDropThreshold ≤ s.frameDrop.frameDropCount + 1 then
        let s1 : MState :=
          { s with
              frameDrop :=
                { s.frameDrop with frameDropCount := s.frameDrop.frameDropCount + 1 } }
        let rt := setOption optOff none env s1
        (rt.1,
          [Emitted.fallbackCallback perfMsg, Emitted.errorEvent perfMsg] ++
            rt.2 ++ [Emitted.onOptionChangedCallback optOff])
      else
        ({ s with
            frameDrop :=
              { s.frameDrop with
                  frameDropCount := s.frameDrop.frameDropCount + 1,
                  lastFrameTime := now } }, [])
    else
      ({ s with
          frameDrop :=
            { s.frameDrop with frameDropCount := 0, lastFrameTime := now } }, [])
  else ({ s with frameDrop := { s.frameDrop with lastFrameTime := now } }, [])

/-- Running the governor loop over a list of tick times. -/
def govRun : List ℚ → InitEnv → MState → MState × List Emitted
  | [], _, s => (s, [])
  | t :: ts, env, s =>
    let p1 := govTick t env s
    let p2 := govRun ts env p1.1
    (p2.1, p1.2 ++ p2.2)

/-- Counts the fallback-callback notifications in an event list. -/
def isFallbackEv : Emitted → Bool
  | Emitted.fallbackCallback _ => true
  | _ => false

def countFallbacks (evs : List Emitted) : Nat :=
  (evs.filter isFallbackEv).length

/-- External stimuli of one single-output manager. -/
inductive Event
  | setOpt (o : Anime4KOption) (hint : Option StateHint) (env : InitEnv)
  | resizeEv (w h : Nat)
  | tickEv (video : VideoState) (outcome : FrameOutcome)
  | govEv (now : ℚ) (env : InitEnv)
  | destroyEv

/-- One step of the single-output manager. -/
def stepEv : Event → MState → MState × List Emitted
  | Event.setOpt o hint env, s => setOption o hint env s
  | Event.resizeEv w h, s => resize w h s
  | Event.tickEv v oc, s => renderFrame v oc s
  | Event.govEv now env, s => govTick now env s
  | Event.destroyEv, s => destroy s

/-- States reachable from a freshly constructed manager by any event
sequence. -/
inductive Reachable : MState → Prop
  | init : Reachable mInit
  | next (e : Event) {s : MState} : Reachable s → Reachable (stepEv e s).1

/-- Side selector for the comparison manager. -/
inductive SideTag
  | left
  | right
deriving DecidableEq, Repr

/-- State of one `VideoCoreAnime4KComparisonManager` (class fields, lines
339-368): two independent `ComparisonSide` records, shared box size and
divider position. -/
structure CState where
  boxSize : Nat × Nat
  dividerPosition : ℚ
  left : SideRes
  right : SideRes
deriving DecidableEq

/-- A fresh comparison side with the given option. -/
def freshSide (o : Anime4KOption) (nextId : Nat) : SideRes :=
  { option := o, canvas := none, device := none, context := none,
    canvasFormat := none, renderLoopId := none, cachedResources := none,
    abortController := none, initialized := false, live := [], nextId := nextId }

/-- Initial comparison-manager state (`_left.option = "off"`,
`_right.option = "mode-a"`, divider at 50). -/
def cInit : CState :=
  { boxSize := (0, 0), dividerPosition := 50,
    left := freshSide optOff 0, right := freshSide optModeA 0 }

def getSide : SideTag → CState → SideRes
  | SideTag.left, s => s.left
  | SideTag.right, s => s.right

def setSide : SideTag → SideRes → CState → CState
  | SideTag.left, r, s => { s with left := r }
  | SideTag.right, r, s => { s with right := r }

/-- `getOptions()` (lines 405-407). -/
def getOptions (s : CState) : Anime4KOption × Anime4KOption :=
  (s.left.option, s.right.option)

/-- `getDividerPosition()` (lines 409-411). -/
def getDividerPosition (s : CState) : ℚ :=
  s.dividerPosition

/-- `setDividerPosition(position)` (lines 447-450):
`Math.max(0, Math.min(100, position))`.  (`_updateClipPaths` only touches
canvas `clip-path` styles, which are not modelled.) -/
def setDividerPosition (p : ℚ) (s : CState) : CState :=
  { s with dividerPosition := max 0 (min 100 p) }

/-- `_destroySide(side)` (lines 845-883). -/
def destroySideC (tag : SideTag) (s : CState) : CState × List Emitted :=
  let rt := destroyCore (getSide tag s)
  (setSide tag rt.1 s, rt.2)

/-- `destroy()` (lines 885-891): destroy both sides, dispatch `destroyed`. -/
def comparisonDestroy (s : CState) : CState × List Emitted :=
  let l := destroySideC SideTag.left s
  let r := destroySideC SideTag.right l.1
  (r.1, l.2 ++ r.2 ++ [Emitted.destroyedEvent])

/-- `_hideCanvases()` (lines 893-900). -/
def hideCanvases (s : CState) : CState :=
  { s with
      left :=
        { s.left with
            canvas := Option.map (fun c => { c with visible := false }) s.left.canvas },
      right :=
        { s.right with
            canvas := Option.map (fun c => { c with visible := false }) s.right.canvas } }

/-- `_showCanvases()` (lines 902-909). -/
def showCanvases (s : CState) : CState :=
  { s with
      left :=
        { s.left with
            canvas := Option.map (fun c => { c with visible := true }) s.left.canvas },
      right :=
        { s.right with
            canvas := Option.map (fun c => { c with visible := true }) s.right.canvas } }

/-- `_isHidden()` (lines 911-914): either canvas has `display === "none"`. -/
def isHiddenC (s : CState) : Bool :=
  (match s.left.canvas with
    | some c => !c.visible
    | none => false) ||
  (match s.right.canvas with
    | some c => !c.visible
    | none => false)

/-- Message head used by the comparison `_handleError` fallback callback. -/
def strComparisonHead : String := "Anime4K Comparison: "

/-- `_handleError(message)` (lines 916-920): notifications only, no state
change and no option fallback. -/
def handleErrorC (msg : String) : List Emitted :=
  [Emitted.fallbackCallback (strComparisonHead ++ msg), Emitted.errorEvent msg]

/-- `_initializeSide` + `_createCanvas` + `_startRendering` (lines 528-641)
as one atomic step for one side; dispatches `canvascreated` with the side
tag. -/
def initializeSide (tag : SideTag) (env : InitEnv) (s : CState) :
    CState × List Emitted × Option String :=
  let r := getSide tag s
  if r.initialized = true ∨ r.option = optOff then (s, [], none)
  else
    let r0 := { r with abortController := some r.nextId, nextId := r.nextId + 1 }
    if env.gpuSupported = false then
      (setSide tag r0 s, [], some strWebgpuNotSupported)
    else
      let r1 : SideRes :=
        { r0 with
            canvas := some { width := s.boxSize.1, height := s.boxSize.2, visible := true },
            device := some r0.nextId,
            context := some (r0.nextId + 1),
            renderLoopId := some (r0.nextId + 2),
            nextId := r0.nextId + 3,
            canvasFormat := some strPreferredFormat,
            initialized := true }
      (setSide tag r1 s,
        [Emitted.canvasCreatedSideEvent (tag = SideTag.left)], none)

/-- `_updateSide(side, option)` (lines 508-526). -/
def updateSide (tag : SideTag) (o : Anime4KOption) (env : InitEnv) (s : CState) :
    CState × List Emitted :=
  let previousOption := (getSide tag s).option
  let s1 := setSide tag { getSide tag s with option := o } s
  let d :=
    if o = optOff ∨ previousOption ≠ o then destroySideC tag s1 else (s1, [])
  if o ≠ optOff then
    match initializeSide tag env d.1 with
    | (s3, evs3, some msg) => (s3, d.2 ++ evs3 ++ handleErrorC msg)
    | (s3, evs3, none) => (s3, d.2 ++ evs3)
  else (d.1, d.2)

/-- The part of `setOptions` after the state-hint dispatch (lines 482-506):
box-size guard, show-if-hidden, then update each changed side.
(`_updateClipPaths` at the end only touches unmodelled styles.) -/
def setOptionsMain (l r : Anime4KOption) (env : InitEnv) (s : CState) :
    CState × List Emitted :=
  if s.boxSize.1 = 0 ∨ s.boxSize.2 = 0 then (s, [])
  else
    let s0 := if isHiddenC s = true then showCanvases s else s
    let p1 :=
      if l ≠ s0.left.option then updateSide SideTag.left l env s0 else (s0, [])
    let p2 :=
      if r ≠ p1.1.right.option then updateSide SideTag.right r env p1.1 else (p1.1, [])
    (p2.1, p1.2 ++ p2.2)

/-- `setOptions(left, right, state?)` (lines 463-506). -/
def setOptions (l r : Anime4KOption) (hint : Option StateHint) (env : InitEnv)
    (s : CState) : CState × List Emitted :=
  match hint with
  | some st =>
    if st.isMiniPlayer = true ∨ st.isPip = true then comparisonDestroy s
    else if st.seeking = true then (hideCanvases s, [])
    else setOptionsMain l r env s
  | none => setOptionsMain l r env s

/-- `resize()` / `updateCanvasSize()` (lines 413-445): store the measured
box, resize both canvases. -/
def resizeC (w h : Nat) (s : CState) : CState :=
  { s with
      boxSize := (w, h),
      left :=
        { s.left with
            canvas := Option.map (fun c => { c with width := w, height := h }) s.left.canvas },
      right :=
        { s.right with
            canvas := Option.map (fun c => { c with width := w, height := h }) s.right.canvas } }

/-- One render-loop iteration for one comparison side (lines 643-802). -/
def csTick (tag : SideTag) (video : VideoState) (outcome : FrameOutcome) (s : CState) :
    CState × List Emitted :=
  let rt := tickCore video outcome (getSide tag s)
  (setSide tag rt.1 s, rt.2)

/-- External stimuli of the comparison manager. -/
inductive CEvent
  | setOpts (l r : Anime4KOption) (hint : Option StateHint) (env : InitEnv)
  | setDiv (p : ℚ)
  | resizeCEv (w h : Nat)
  | tickCEv (tag : SideTag) (video : VideoState) (outcome : FrameOutcome)
  | destroyCEv

/-- One step of the comparison manager. -/
def cStep : CEvent → CState → CState × List Emitted
  | CEvent.setOpts l r hint env, s => setOptions l r hint env s
  | CEvent.setDiv p, s => (setDividerPosition p s, [])
  | CEvent.resizeCEv w h, s => (resizeC w h s, [])
  | CEvent.tickCEv tag v oc, s => csTick tag v oc s
  | CEvent.destroyCEv, s => comparisonDestroy s

/-- Comparison states reachable from a fresh manager. -/
inductive CReachable : CState → Prop
  | init : CReachable cInit
  | next (e : CEvent) {s : CState} : CReachable s → CReachable (cStep e s).1

/-- `handlePointerMove` of the comparison divider drag handler: the reported
position is `Math.max(5, Math.min(95, (x / rect.width) * 100))` with
`x = clientX - rect.left`. -/
def handlePointerMove (clientX rectLeft rectWidth : ℚ) : ℚ :=
  max 5 (min 95 ((clientX - rectLeft) / rectWidth * 100))

/-! ### Helper lemmas -/

/-- Under the raw-option guard the raw constructor never throws. -/
theorem rawOk (o : Anime4KOption) (h : isRawUpscaler o = true) :
    ∃ k, createRawUpscalerPipeline o = Except.ok k := by
  have hm : o ∈ rawOptions := by simpa [isRawUpscaler] using h
  simp only [rawOptions, optCnn2xM, optCnn2xVL, optDenoiseCnn2xVL, optCnn2xUL,
    optGan3xL, optGan4xUUL, List.mem_cons, List.not_mem_nil, or_false] at hm
  rcases hm with h1 | h1 | h1 | h1 | h1 | h1 <;> subst h1 <;>
    exact ⟨_, rfl⟩

theorem invSide_destroyCore (r : SideRes) (h : InvSide r) :
    InvSide (destroyCore r).1 := by
  unfold InvSide at h ⊢
  unfold destroyCore
  cases hc : r.cachedResources with
  | none => simp only [hc, cachedLive] at h ⊢; exact h
  | some c =>
    simp only [hc, cachedLive] at h ⊢
    rw [h]
    simp

theorem invSide_reschedule (r : SideRes) (h : InvSide r) :
    InvSide (reschedule r) := h

theorem invSide_rawBranchCore (nw nh tw th : Nat) (r : SideRes)
    (h : InvSide r) (hraw : isRawUpscaler r.option = true) :
    InvSide (rawBranchCore nw nh tw th r).1 := by
  obtain ⟨k, hk⟩ := rawOk r.option hraw
  unfold InvSide at h ⊢
  unfold rawBranchCore
  by_cases hn : needsRecreate r.cachedResources nw nh tw th = true
  · rw [if_pos hn, hk]
    cases hc : r.cachedResources with
    | none =>
      rw [hc] at h
      simp only [cachedLive] at h
      simp [hc, cachedLive, h]
    | some c =>
      rw [hc] at h
      simp only [cachedLive] at h ⊢
      simp [hc, cachedLive, h]
  · rw [if_neg hn]
    exact h

theorem invSide_tickBody (oc : FrameOutcome) (nw nh tw th : Nat) (r : SideRes)
    (h : InvSide r) : InvSide (tickBody oc nw nh tw th r).1 := by
  unfold tickBody
  by_cases hraw : isRawUpscaler r.option = true
  · rw [if_pos hraw]
    have hb := invSide_rawBranchCore nw nh tw th r h hraw
    rcases hrb : rawBranchCore nw nh tw th r with ⟨r1, evs, err⟩
    rw [hrb] at hb
    cases err with
    | some msg => exact hb
    | none =>
      cases oc with
      | ok => exact hb
      | failEarly msg => exact hb
      | failLate msg => exact hb
  · rw [if_neg hraw]
    cases oc with
    | ok => exact h
    | failEarly msg => exact h
    | failLate msg => exact h

theorem rawBranchCore_option (nw nh tw th : Nat) (r : SideRes) :
    (rawBranchCore nw nh tw th r).1.option = r.option := by
  unfold rawBranchCore
  split
  · cases createRawUpscalerPipeline r.option <;> rfl
  · rfl

theorem rawBranchCore_device (nw nh tw th : Nat) (r : SideRes) :
    (rawBranchCore nw nh tw th r).1.device = r.device := by
  unfold rawBranchCore
  split
  · cases createRawUpscalerPipeline r.option <;> rfl
  · rfl

theorem tickBody_option (oc : FrameOutcome) (nw nh tw th : Nat) (r : SideRes) :
    (tickBody oc nw nh tw th r).1.option = r.option := by
  unfold tickBody
  split
  · rcases hrb : rawBranchCore nw nh tw th r with ⟨r1, evs, err⟩
    have h1 : r1.option = r.option := by
      have := rawBranchCore_option nw nh tw th r
      rw [hrb] at this
      exact this
    cases err with
    | some msg => exact h1
    | none => cases oc <;> exact h1
  · cases oc <;> rfl

theorem tickBody_device (oc : FrameOutcome) (nw nh tw th : Nat) (r : SideRes) :
    (tickBody oc nw nh tw th r).1.device = r.device := by
  unfold tickBody
  split
  · rcases hrb : rawBranchCore nw nh tw th r with ⟨r1, evs, err⟩
    have h1 : r1.device = r.device := by
      have := rawBranchCore_device nw nh tw th r
      rw [hrb] at this
      exact this
    cases err with
    | some msg => exact h1
    | none => cases oc <;> exact h1
  · cases oc <;> rfl

theorem tickCore_option (v : VideoState) (oc : FrameOutcome) (r : SideRes) :
    (tickCore v oc r).1.option = r.option := by
  unfold tickCore
  cases hd : r.device with
  | none => rfl
  | some d =>
  cases hx : r.context with
  | none => rfl
  | some x =>
  cases hcv : r.canvas with
  | none => rfl
  | some cv =>
  cases hf : r.canvasFormat with
  | none => rfl
  | some f =>
  simp only
  split
  · rfl
  · split
    · rfl
    · cases oc with
      | failEarly msg => rfl
      | ok => exact tickBody_option _ _ _ _ _ r
      | failLate msg => exact tickBody_option _ _ _ _ _ r

theorem tickCore_device (v : VideoState) (oc : FrameOutcome) (r : SideRes) :
    (tickCore v oc r).1.device = r.device := by
  unfold tickCore
  cases hd : r.device with
  | none => exact hd
  | some d =>
  cases hx : r.context with
  | none => exact hd
  | some x =>
  cases hcv : r.canvas with
  | none => exact hd
  | some cv =>
  cases hf : r.canvasFormat with
  | none => exact hd
  | some f =>
  simp only
  split
  · exact hd
  · split
    · exact hd
    · cases oc with
      | failEarly msg => exact hd
      | ok => rw [tickBody_device]; exact hd
      | failLate msg => rw [tickBody_device]; exact hd

theorem invSide_tickCore (v : VideoState) (oc : FrameOutcome) (r : SideRes)
    (h : InvSide r) : InvSide (tickCore v oc r).1 := by
  unfold tickCore
  cases hd : r.device with
  | none => exact h
  | some d =>
  cases hx : r.context with
  | none => exact h
  | some x =>
  cases hcv : r.canvas with
  | none => exact h
  | some cv =>
  cases hf : r.canvasFormat with
  | none => exact h
  | some f =>
  simp only
  split
  · exact h
  · split
    · exact h
    · cases oc with
      | failEarly msg => exact h
      | ok => exact invSide_tickBody _ _ _ _ _ r h
      | failLate msg => exact invSide_tickBody _ _ _ _ _ r h

theorem invSide_congr {r r1 : SideRes} (hl : r1.live = r.live)
    (hc : r1.cachedResources = r.cachedResources) (h : InvSide r) : InvSide r1 := by
  unfold InvSide at h ⊢
  rw [hl, hc]
  exact h

/-- The texture-cache invariant of a single manager. -/
def Inv (s : MState) : Prop :=
  InvSide s.side

theorem inv_destroy (s : MState) (h : Inv s) : Inv (destroy s).1 :=
  invSide_destroyCore s.side h

theorem inv_hideCanvas (s : MState) (h : Inv s) : Inv (hideCanvas s) := by
  unfold hideCanvas
  cases s.side.canvas
  · exact h
  · exact invSide_congr rfl rfl h

theorem inv_showCanvas (s : MState) (h : Inv s) : Inv (showCanvas s) := by
  unfold showCanvas
  cases s.side.canvas
  · exact h
  · exact invSide_congr rfl rfl h

theorem inv_initializeStep (env : InitEnv) (s : MState) (h : Inv s) :
    Inv (initializeStep env s).1 := by
  unfold initializeStep
  split
  · exact h
  · split
    · exact invSide_congr rfl rfl h
    · exact invSide_congr rfl rfl h

theorem inv_setOptionOff (s : MState) (h : Inv s) : Inv (setOptionOff s).1 := by
  unfold setOptionOff
  dsimp only
  split
  · exact inv_destroy _ (invSide_congr rfl rfl h)
  · split
    · exact invSide_congr rfl rfl h
    · split
      · exact inv_showCanvas _ (invSide_congr rfl rfl h)
      · split
        · exact invSide_congr rfl rfl h
        · exact invSide_congr rfl rfl h

theorem inv_handleError (msg : String) (s : MState) (h : Inv s) :
    Inv (handleError msg s).1 :=
  inv_setOptionOff s h

theorem inv_setOptionMain (o p : Anime4KOption) (env : InitEnv) (s1 : MState)
    (h : Inv s1) : Inv (setOptionMain o p env s1).1 := by
  unfold setOptionMain
  dsimp only
  split
  · exact h
  · split
    · exact inv_showCanvas _ h
    · split
      · have hd : Inv (if p ≠ optOff then destroy s1 else (s1, [])).1 := by
          split
          · exact inv_destroy _ h
          · exact h
        have hi := inv_initializeStep env _ hd
        rcases hs : initializeStep env (if p ≠ optOff then destroy s1 else (s1, [])).1
          with ⟨s3, evs3, err⟩
        rw [hs] at hi
        cases err with
        | some msg => exact inv_handleError msg s3 hi
        | none => exact hi
      · exact h

theorem inv_setOption (o : Anime4KOption) (hint : Option StateHint) (env : InitEnv)
    (s : MState) (h : Inv s) : Inv (setOption o hint env s).1 := by
  unfold setOption
  dsimp only
  by_cases h1 : s.side.option ≠ o ∧ o = optOff
  · rw [if_pos h1]
    exact inv_destroy _ (invSide_congr rfl rfl h)
  · rw [if_neg h1]
    cases hint with
    | none => exact inv_setOptionMain _ _ _ _ (invSide_congr rfl rfl h)
    | some st =>
      dsimp only
      by_cases h2 : st.isMiniPlayer = true ∨ st.isPip = true
      · rw [if_pos h2]
        by_cases h3 : s.side.option ≠ optOff
        · rw [if_pos h3]
          exact inv_destroy _ (invSide_congr rfl rfl h)
        · rw [if_neg h3]
          exact invSide_congr rfl rfl h
      · rw [if_neg h2]
        by_cases h4 : st.seeking = true
        · rw [if_pos h4]
          exact inv_hideCanvas _ (invSide_congr rfl rfl h)
        · rw [if_neg h4]
          exact inv_setOptionMain _ _ _ _ (invSide_congr rfl rfl h)

theorem inv_renderFrame (v : VideoState) (oc : FrameOutcome) (s : MState)
    (h : Inv s) : Inv (renderFrame v oc s).1 :=
  invSide_tickCore v oc s.side h

theorem inv_resize (w h2 : Nat) (s : MState) (h : Inv s) : Inv (resize w h2 s).1 :=
  invSide_congr rfl rfl h

theorem inv_govTick (now : ℚ) (env : InitEnv) (s : MState) (h : Inv s) :
    Inv (govTick now env s).1 := by
  unfold govTick
  split
  · exact h
  · split
    · exact invSide_congr rfl rfl h
    · split
      · split
        · split
          · exact inv_setOption _ _ _ _ (invSide_congr rfl rfl h)
          · exact invSide_congr rfl rfl h
        · exact invSide_congr rfl rfl h
      · exact invSide_congr rfl rfl h

theorem inv_step (e : Event) (s : MState) (h : Inv s) : Inv (stepEv e s).1 := by
  cases e with
  | setOpt o hint env => exact inv_setOption o hint env s h
  | resizeEv w h2 => exact inv_resize w h2 s h
  | tickEv v oc => exact inv_renderFrame v oc s h
  | govEv now env => exact inv_govTick now env s h
  | destroyEv => exact inv_destroy s h

theorem reachable_inv {s : MState} (h : Reachable s) : Inv s := by
  induction h with
  | init => rfl
  | next e hr ih => exact inv_step e _ ih

/-- The off-implies-no-device invariant of a single manager. -/
def Inv2 (s : MState) : Prop :=
  s.side.option = optOff → s.side.device = none

theorem inv2_destroy (s : MState) : Inv2 (destroy s).1 :=
  fun _ => rfl

theorem hideCanvas_device (s : MState) : (hideCanvas s).side.device = s.side.device := by
  unfold hideCanvas
  cases s.side.canvas <;> rfl

theorem hideCanvas_option (s : MState) : (hideCanvas s).side.option = s.side.option := by
  unfold hideCanvas
  cases s.side.canvas <;> rfl

theorem showCanvas_device (s : MState) : (showCanvas s).side.device = s.side.device := by
  unfold showCanvas
  cases s.side.canvas <;> rfl

theorem showCanvas_option (s : MState) : (showCanvas s).side.option = s.side.option := by
  unfold showCanvas
  cases s.side.canvas <;> rfl

theorem inv2_initializeStep (env : InitEnv) (s : MState) (h : Inv2 s) :
    Inv2 (initializeStep env s).1 := by
  unfold initializeStep
  split
  · exact h
  case isFalse hcond =>
    have hopt : ¬ s.side.option = optOff := fun hc => hcond (Or.inr hc)
    split
    · intro ho
      exact absurd ho hopt
    · intro ho
      exact absurd ho hopt

theorem inv2_setOptionOff (s : MState) (h : Inv2 s) : Inv2 (setOptionOff s).1 := by
  unfold setOptionOff
  dsimp only
  split
  · exact inv2_destroy _
  case isFalse hprev =>
    have hdev : s.side.device = none := h (not_not.mp hprev)
    split
    · intro _
      exact hdev
    · split
      · intro _
        rw [showCanvas_device]
        exact hdev
      · split
        · intro _
          exact hdev
        · intro _
          exact hdev

theorem inv2_handleError (msg : String) (s : MState) (h : Inv2 s) :
    Inv2 (handleError msg s).1 :=
  inv2_setOptionOff s h

theorem inv2_setOptionMain (o p : Anime4KOption) (env : InitEnv) (s1 : MState)
    (h : Inv2 s1) : Inv2 (setOptionMain o p env s1).1 := by
  unfold setOptionMain
  dsimp only
  split
  · exact h
  · split
    · intro ho
      rw [showCanvas_device]
      rw [showCanvas_option] at ho
      exact h ho
    · split
      · have hd : Inv2 (if p ≠ optOff then destroy s1 else (s1, [])).1 := by
          split
          · exact inv2_destroy _
          · exact h
        have hi := inv2_initializeStep env _ hd
        rcases hs : initializeStep env (if p ≠ optOff then destroy s1 else (s1, [])).1
          with ⟨s3, evs3, err⟩
        rw [hs] at hi
        cases err with
        | some msg => exact inv2_handleError msg s3 hi
        | none => exact hi
      · exact h

theorem inv2_setOption (o : Anime4KOption) (hint : Option StateHint) (env : InitEnv)
    (s : MState) (h : Inv2 s) : Inv2 (setOption o hint env s).1 := by
  unfold setOption
  dsimp only
  by_cases hfirst : s.side.option ≠ o ∧ o = optOff
  · rw [if_pos hfirst]
    exact inv2_destroy _
  · rw [if_neg hfirst]
    have h1 : Inv2 ({ s with side := { s.side with option := o } } : MState) := by
      intro ho
      have hpo : s.side.option = optOff := by
        by_contra hne
        exact hfirst ⟨fun he => hne (he ▸ ho), ho⟩
      exact h hpo
    cases hint with
    | none => exact inv2_setOptionMain _ _ _ _ h1
    | some st =>
      dsimp only
      by_cases h2 : st.isMiniPlayer = true ∨ st.isPip = true
      · rw [if_pos h2]
        by_cases h3 : s.side.option ≠ optOff
        · rw [if_pos h3]
          exact inv2_destroy _
        · rw [if_neg h3]
          intro _
          exact h (not_not.mp h3)
      · rw [if_neg h2]
        by_cases h4 : st.seeking = true
        · rw [if_pos h4]
          intro ho
          rw [hideCanvas_device]
          rw [hideCanvas_option] at ho
          exact h1 ho
        · rw [if_neg h4]
          exact inv2_setOptionMain _ _ _ _ h1

theorem inv2_renderFrame (v : VideoState) (oc : FrameOutcome) (s : MState)
    (h : Inv2 s) : Inv2 (renderFrame v oc s).1 := by
  intro ho
  have h1 : (renderFrame v oc s).1.side.option = s.side.option := tickCore_option v oc s.side
  have h2 : (renderFrame v oc s).1.side.device = s.side.device := tickCore_device v oc s.side
  rw [h2]
  rw [h1] at ho
  exact h ho

theorem inv2_resize (w h2 : Nat) (s : MState) (h : Inv2 s) : Inv2 (resize w h2 s).1 :=
  fun ho => h ho

theorem inv2_govTick (now : ℚ) (env : InitEnv) (s : MState) (h : Inv2 s) :
    Inv2 (govTick now env s).1 := by
  unfold govTick
  split
  · exact h
  · split
    · exact fun ho => h ho
    · split
      · split
        · split
          · exact inv2_setOption _ _ _ _ (fun ho => h ho)
          · exact fun ho => h ho
        · exact fun ho => h ho
      · exact fun ho => h ho

theorem inv2_step (e : Event) (s : MState) (h : Inv2 s) : Inv2 (stepEv e s).1 := by
  cases e with
  | setOpt o hint env => exact inv2_setOption o hint env s h
  | resizeEv w h2 => exact inv2_resize w h2 s h
  | tickEv v oc => exact inv2_renderFrame v oc s h
  | govEv now env => exact inv2_govTick now env s h
  | destroyEv => exact inv2_destroy s

theorem reachable_inv2 {s : MState} (h : Reachable s) : Inv2 s := by
  induction h with
  | init => exact fun _ => rfl
  | next e hr ih => exact inv2_step e _ ih

/-- The texture-cache invariant of the comparison manager: each side. -/
def CInv (s : CState) : Prop :=
  InvSide s.left ∧ InvSide s.right

theorem cinv_destroySideC (tag : SideTag) (s : CState) (h : CInv s) :
    CInv (destroySideC tag s).1 := by
  cases tag with
  | left => exact ⟨invSide_destroyCore s.left h.1, h.2⟩
  | right => exact ⟨h.1, invSide_destroyCore s.right h.2⟩

theorem cinv_comparisonDestroy (s : CState) (h : CInv s) :
    CInv (comparisonDestroy s).1 :=
  cinv_destroySideC SideTag.right _ (cinv_destroySideC SideTag.left s h)

theorem cinv_hideCanvases (s : CState) (h : CInv s) : CInv (hideCanvases s) :=
  ⟨invSide_congr rfl rfl h.1, invSide_congr rfl rfl h.2⟩

theorem cinv_showCanvases (s : CState) (h : CInv s) : CInv (showCanvases s) :=
  ⟨invSide_congr rfl rfl h.1, invSide_congr rfl rfl h.2⟩

theorem cinv_initializeSide (tag : SideTag) (env : InitEnv) (s : CState)
    (h : CInv s) : CInv (initializeSide tag env s).1 := by
  unfold initializeSide
  dsimp only
  split
  · exact h
  · split
    · cases tag with
      | left => exact ⟨invSide_congr rfl rfl h.1, h.2⟩
      | right => exact ⟨h.1, invSide_congr rfl rfl h.2⟩
    · cases tag with
      | left => exact ⟨invSide_congr rfl rfl h.1, h.2⟩
      | right => exact ⟨h.1, invSide_congr rfl rfl h.2⟩

theorem cinv_updateTail (tag : SideTag) (o : Anime4KOption) (env : InitEnv)
    (d : CState × List Emitted) (h : CInv d.1) :
    CInv (if o ≠ optOff then
        match initializeSide tag env d.1 with
        | (s3, e3, some msg) => (s3, d.2 ++ e3 ++ handleErrorC msg)
        | (s3, e3, none) => (s3, d.2 ++ e3)
      else (d.1, d.2)).1 := by
  split
  · rcases hs : initializeSide tag env d.1 with ⟨s3, e3, err⟩
    have hi := cinv_initializeSide tag env d.1 h
    rw [hs] at hi
    cases err with
    | some m => exact hi
    | none => exact hi
  · exact h

theorem cinv_updateSide (tag : SideTag) (o : Anime4KOption) (env : InitEnv)
    (s : CState) (h : CInv s) : CInv (updateSide tag o env s).1 := by
  have h1 : CInv (setSide tag { getSide tag s with option := o } s) := by
    cases tag with
    | left => exact ⟨invSide_congr rfl rfl h.1, h.2⟩
    | right => exact ⟨h.1, invSide_congr rfl rfl h.2⟩
  have hd : CInv (if o = optOff ∨ (getSide tag s).option ≠ o then
      destroySideC tag (setSide tag { getSide tag s with option := o } s)
    else (setSide tag { getSide tag s with option := o } s, [])).1 := by
    split
    · exact cinv_destroySideC _ _ h1
    · exact h1
  exact cinv_updateTail tag o env _ hd

theorem cinv_setOptionsMain (l r : Anime4KOption) (env : InitEnv) (s : CState)
    (h : CInv s) : CInv (setOptionsMain l r env s).1 := by
  unfold setOptionsMain
  dsimp only
  split
  · exact h
  · have h0 : CInv (if isHiddenC s = true then showCanvases s else s) := by
      split
      · exact cinv_showCanvases s h
      · exact h
    set s0 := if isHiddenC s = true then showCanvases s else s with hs0
    have hq1 : CInv (if l ≠ s0.left.option then
        updateSide SideTag.left l env s0 else (s0, [])).1 := by
      split
      · exact cinv_updateSide _ _ _ _ h0
      · exact h0
    set p1 := if l ≠ s0.left.option then updateSide SideTag.left l env s0 else (s0, [])
      with hp1d
    have hq2 : CInv (if r ≠ p1.1.right.option then
        updateSide SideTag.right r env p1.1 else (p1.1, [])).1 := by
      split
      · exact cinv_updateSide _ _ _ _ hq1
      · exact hq1
    exact hq2

theorem cinv_setOptions (l r : Anime4KOption) (hint : Option StateHint)
    (env : InitEnv) (s : CState) (h : CInv s) :
    CInv (setOptions l r hint env s).1 := by
  unfold setOptions
  cases hint with
  | none => exact cinv_setOptionsMain l r env s h
  | some st =>
    dsimp only
    split
    · exact cinv_comparisonDestroy s h
    · split
      · exact cinv_hideCanvases s h
      · exact cinv_setOptionsMain l r env s h

theorem cinv_csTick (tag : SideTag) (v : VideoState) (oc : FrameOutcome)
    (s : CState) (h : CInv s) : CInv (csTick tag v oc s).1 := by
  cases tag with
  | left => exact ⟨invSide_tickCore v oc s.left h.1, h.2⟩
  | right => exact ⟨h.1, invSide_tickCore v oc s.right h.2⟩

theorem cinv_resizeC (w h2 : Nat) (s : CState) (h : CInv s) : CInv (resizeC w h2 s) :=
  ⟨invSide_congr rfl rfl h.1, invSide_congr rfl rfl h.2⟩

theorem cinv_cStep (e : CEvent) (s : CState) (h : CInv s) : CInv (cStep e s).1 := by
  cases e with
  | setOpts l r hint env => exact cinv_setOptions l r hint env s h
  | setDiv p => exact ⟨invSide_congr rfl rfl h.1, invSide_congr rfl rfl h.2⟩
  | resizeCEv w h2 => exact cinv_resizeC w h2 s h
  | tickCEv tag v oc => exact cinv_csTick tag v oc s h
  | destroyCEv => exact cinv_comparisonDestroy s h

theorem creachable_cinv {s : CState} (h : CReachable s) : CInv s := by
  induction h with
  | init => exact ⟨rfl, rfl⟩
  | next e hr ih => exact cinv_cStep e _ ih

theorem destroy_side_device (s : MState) : (destroy s).1.side.device = none := rfl

theorem destroy_side_canvas (s : MState) : (destroy s).1.side.canvas = none := rfl

theorem destroy_side_context (s : MState) : (destroy s).1.side.context = none := rfl

theorem destroy_side_cached (s : MState) :
    (destroy s).1.side.cachedResources = none := rfl

theorem destroy_side_option (s : MState) :
    (destroy s).1.side.option = s.side.option := rfl

theorem countFallbacks_append (a b : List Emitted) :
    countFallbacks (a ++ b) = countFallbacks a + countFallbacks b := by
  simp [countFallbacks, List.filter_append]

theorem countFallbacks_destroy (s : MState) : countFallbacks (destroy s).2 = 0 := by
  unfold destroy destroyCore countFallbacks
  dsimp only
  cases s.side.cachedResources with
  | none => simp [isFallbackEv]
  | some c => simp [isFallbackEv]

theorem setOption_to_off (env : InitEnv) (s : MState) (h : s.side.option ≠ optOff) :
    setOption optOff none env s =
      destroy { s with side := { s.side with option := optOff } } := by
  unfold setOption
  dsimp only
  rw [if_pos ⟨h, rfl⟩]

theorem govTick_off (now : ℚ) (env : InitEnv) (s : MState)
    (h : s.side.option = optOff) : govTick now env s = (s, []) := by
  unfold govTick
  rw [if_pos h]

theorem govTick_drop (now : ℚ) (env : InitEnv) (s : MState)
    (h1 : s.side.option ≠ optOff)
    (h2 : s.frameDrop.performanceGracePeriod ≤ now - s.frameDrop.initTime)
    (h3 : 0 < s.frameDrop.lastFrameTime)
    (h4 : s.frameDrop.targetFrameTime * 1.5 < now - s.frameDrop.lastFrameTime)
    (h5 : s.frameDrop.frameDropCount + 1 < s.frameDrop.frameDropThreshold) :
    govTick now env s =
      ({ s with
          frameDrop :=
            { s.frameDrop with
                frameDropCount := s.frameDrop.frameDropCount + 1,
                lastFrameTime := now } }, []) := by
  unfold govTick
  rw [if_neg h1, if_neg (not_lt.mpr h2), if_pos h3, if_pos h4,
    if_neg (not_le.mpr h5)]

theorem govTick_reset (now : ℚ) (env : InitEnv) (s : MState)
    (h1 : s.side.option ≠ optOff)
    (h2 : s.frameDrop.performanceGracePeriod ≤ now - s.frameDrop.initTime)
    (h3 : 0 < s.frameDrop.lastFrameTime)
    (h4 : now - s.frameDrop.lastFrameTime ≤ s.frameDrop.targetFrameTime * 1.5) :
    govTick now env s =
      ({ s with
          frameDrop :=
            { s.frameDrop with frameDropCount := 0, lastFrameTime := now } }, []) := by
  unfold govTick
  rw [if_neg h1, if_neg (not_lt.mpr h2), if_pos h3, if_neg (not_lt.mpr h4)]

theorem govTick_fallback (now : ℚ) (env : InitEnv) (s : MState)
    (h1 : s.side.option ≠ optOff)
    (h2 : s.frameDrop.performanceGracePeriod ≤ now - s.frameDrop.initTime)
    (h3 : 0 < s.frameDrop.lastFrameTime)
    (h4 : s.frameDrop.targetFrameTime * 1.5 < now - s.frameDrop.lastFrameTime)
    (h5 : s.frameDrop.frameDropThreshold ≤ s.frameDrop.frameDropCount + 1) :
    (govTick now env s).1.side.option = optOff ∧
      (govTick now env s).1.side.device = none ∧
      countFallbacks (govTick now env s).2 = 1 := by
  unfold govTick
  rw [if_neg h1, if_neg (not_lt.mpr h2), if_pos h3, if_pos h4, if_pos h5]
  dsimp only
  rw [setOption_to_off env
    ({ s with
        frameDrop :=
          { s.frameDrop with frameDropCount := s.frameDrop.frameDropCount + 1 } })
    h1]
  refine ⟨rfl, rfl, ?_⟩
  rw [show ([Emitted.fallbackCallback perfMsg, Emitted.errorEvent perfMsg] :
      List Emitted) = [Emitted.fallbackCallback perfMsg] ++ [Emitted.errorEvent perfMsg]
    from rfl]
  rw [countFallbacks_append, countFallbacks_append, countFallbacks_append,
    countFallbacks_destroy]
  simp [countFallbacks, isFallbackEv]

theorem govRun_off (ts : List ℚ) (env : InitEnv) (s : MState)
    (h : s.side.option = optOff) : govRun ts env s = (s, []) := by
  induction ts with
  | nil => rfl
  | cons t ts ih =>
    unfold govRun
    rw [govTick_off t env s h]
    dsimp only
    rw [ih]
    rfl

theorem renderFrame_noDevice (v : VideoState) (oc : FrameOutcome) (s : MState)
    (h : s.side.device = none) : renderFrame v oc s = (s, []) := by
  unfold renderFrame tickCore
  rw [h]

theorem setOptionMain_boxZero (o p : Anime4KOption) (env : InitEnv) (s1 : MState)
    (hbox : s1.boxSize.1 = 0 ∨ s1.boxSize.2 = 0) :
    setOptionMain o p env s1 = (s1, []) := by
  unfold setOptionMain
  dsimp only
  rw [if_pos hbox]

theorem setOptionMain_show (o p : Anime4KOption) (env : InitEnv) (s1 : MState)
    (hbox : ¬(s1.boxSize.1 = 0 ∨ s1.boxSize.2 = 0))
    (hcv : s1.side.canvas.isSome = true ∧ isCanvasHidden s1 = true) :
    setOptionMain o p env s1 = (showCanvas s1, []) := by
  unfold setOptionMain
  dsimp only
  rw [if_neg hbox, if_pos hcv]

theorem setOption_mini (o : Anime4KOption) (st : StateHint) (env : InitEnv)
    (s : MState) (hoff : o ≠ optOff)
    (hmp : st.isMiniPlayer = true ∨ st.isPip = true)
    (hprev : s.side.option ≠ optOff) :
    setOption o (some st) env s =
      destroy { s with side := { s.side with option := o } } := by
  unfold setOption
  dsimp only
  rw [if_neg (fun hh => hoff hh.2), if_pos hmp, if_pos hprev]

theorem setOption_mini_fresh (o : Anime4KOption) (st : StateHint) (env : InitEnv)
    (s : MState) (hoff : o ≠ optOff)
    (hmp : st.isMiniPlayer = true ∨ st.isPip = true)
    (hprev : s.side.option = optOff) :
    setOption o (some st) env s =
      ({ s with side := { s.side with option := o } }, []) := by
  unfold setOption
  dsimp only
  rw [if_neg (fun hh => hoff hh.2), if_pos hmp, if_neg (not_not_intro hprev)]

theorem setOption_seeking (o : Anime4KOption) (st : StateHint) (env : InitEnv)
    (s : MState) (hfirst : ¬(s.side.option ≠ o ∧ o = optOff))
    (hm : st.isMiniPlayer = false) (hp : st.isPip = false)
    (hsk : st.seeking = true) :
    setOption o (some st) env s =
      (hideCanvas { s with side := { s.side with option := o } }, []) := by
  unfold setOption
  dsimp only
  rw [if_neg hfirst, if_neg (by simp [hm, hp]), if_pos hsk]

theorem setOption_noFlags (o : Anime4KOption) (st : StateHint) (env : InitEnv)
    (s : MState) (hm : st.isMiniPlayer = false) (hp : st.isPip = false)
    (hsk : st.seeking = false) :
    setOption o (some st) env s = setOption o none env s := by
  unfold setOption
  dsimp only
  by_cases hfirst : s.side.option ≠ o ∧ o = optOff
  · rw [if_pos hfirst, if_pos hfirst]
  · rw [if_neg hfirst, if_neg hfirst, if_neg (by simp [hm, hp]),
      if_neg (by simp [hsk])]

theorem catchEvents_no_destroyed (msg : String) :
    Emitted.destroyedEvent ∉ catchEvents msg := by
  unfold catchEvents
  split <;> simp

theorem catchEvents_logError_mem (msg : String) :
    (Emitted.logError (strRenderFrameError ++ msg) ∈ catchEvents msg) ↔
      (strIncludes msg strDestroyed = false ∧ strIncludes msg strLost = false) := by
  unfold catchEvents
  split
  case isTrue hcond =>
    simp only [List.not_mem_nil, false_iff]
    rintro ⟨hd, hl⟩
    rcases hcond with hc | hc
    · rw [hd] at hc
      exact Bool.false_ne_true hc
    · rw [hl] at hc
      exact Bool.false_ne_true hc
  case isFalse hcond =>
    have h1 : strIncludes msg strDestroyed = false := by
      cases hsi : strIncludes msg strDestroyed
      · rfl
      · exact absurd (Or.inl hsi) hcond
    have h2 : strIncludes msg strLost = false := by
      cases hsi : strIncludes msg strLost
      · rfl
      · exact absurd (Or.inr hsi) hcond
    simp [h1, h2]

theorem rawBranchCore_canvas (nw nh tw th : Nat) (r : SideRes) :
    (rawBranchCore nw nh tw th r).1.canvas = r.canvas := by
  unfold rawBranchCore
  split
  · cases createRawUpscalerPipeline r.option <;> rfl
  · rfl

theorem rawBranchCore_events_shape (nw nh tw th : Nat) (r : SideRes) :
    ∀ e ∈ (rawBranchCore nw nh tw th r).2.1,
      (∃ i, e = Emitted.texDestroyed i) ∨ (∃ i, e = Emitted.texCreated i) := by
  unfold rawBranchCore
  split
  · cases hc : r.cachedResources with
    | none =>
      cases createRawUpscalerPipeline r.option <;>
        · intro e he
          simp at he
          exact Or.inr ⟨_, he⟩
    | some c =>
      cases createRawUpscalerPipeline r.option <;>
        · intro e he
          simp at he
          rcases he with he | he
          · exact Or.inl ⟨_, he⟩
          · exact Or.inr ⟨_, he⟩
  · intro e he
    simp at he

/-- The exception-containment behaviour of one render tick, shared by both
managers: when the not-ready guards pass and the GPU work throws `msg`, the
tick reschedules itself, tears nothing down, dispatches no event, and logs
exactly when the message mentions neither `"destroyed"` nor `"lost"`. -/
theorem tickCore_exception (r : SideRes) (v : VideoState) (msg : String)
    (cv : Canvas) (d x : Nat) (f : String)
    (hdev : r.device = some d) (hctx : r.context = some x)
    (hcv : r.canvas = some cv) (hfmt : r.canvasFormat = some f)
    (hcw : cv.width ≠ 0) (hch : cv.height ≠ 0)
    (hpa : v.paused = false) (hse : v.seeking = false) (hrs : 2 ≤ v.readyState)
    (hvw : v.videoWidth ≠ 0) (hvh : v.videoHeight ≠ 0)
    (oc : FrameOutcome)
    (hout : oc = FrameOutcome.failEarly msg ∨ oc = FrameOutcome.failLate msg) :
    (tickCore v oc r).1.renderLoopId.isSome = true ∧
      (tickCore v oc r).1.device = r.device ∧
      (tickCore v oc r).1.option = r.option ∧
      (tickCore v oc r).1.canvas = r.canvas ∧
      Emitted.destroyedEvent ∉ (tickCore v oc r).2 ∧
      ((Emitted.logError (strRenderFrameError ++ msg) ∈ (tickCore v oc r).2) ↔
        (strIncludes msg strDestroyed = false ∧ strIncludes msg strLost = false)) := by
  have hplay : ¬(v.paused = true ∨ v.seeking = true ∨ v.readyState < 2) := by
    rintro (hh | hh | hh)
    · rw [hpa] at hh
      exact Bool.false_ne_true hh
    · rw [hse] at hh
      exact Bool.false_ne_true hh
    · exact absurd hrs (not_le.mpr hh)
  have hdims : ¬(v.videoWidth = 0 ∨ v.videoHeight = 0 ∨ cv.width = 0 ∨ cv.height = 0) := by
    rintro (hh | hh | hh | hh)
    · exact hvw hh
    · exact hvh hh
    · exact hcw hh
    · exact hch hh
  unfold tickCore
  rw [hdev, hctx, hcv, hfmt]
  dsimp only
  rw [if_neg hplay, if_neg hdims]
  rcases hout with hoc | hoc
  · subst hoc
    dsimp only
    exact ⟨rfl, hdev, rfl, hcv, catchEvents_no_destroyed msg,
      catchEvents_logError_mem msg⟩
  · subst hoc
    dsimp only
    unfold tickBody
    by_cases hraw : isRawUpscaler r.option = true
    · rw [if_pos hraw]
      obtain ⟨k, hk⟩ := rawOk r.option hraw
      rcases hrb : rawBranchCore (floorTo4 v.videoWidth) (floorTo4 v.videoHeight)
          (floorTo4 cv.width) (floorTo4 cv.height) r with ⟨r1, evs, err⟩
      have herr : err = none := by
        unfold rawBranchCore at hrb
        rw [hk] at hrb
        by_cases hn : needsRecreate r.cachedResources (floorTo4 v.videoWidth)
            (floorTo4 v.videoHeight) (floorTo4 cv.width) (floorTo4 cv.height) = true
        · rw [if_pos hn] at hrb
          dsimp only at hrb
          exact (congrArg (fun z => z.2.2) hrb).symm.trans rfl
        · rw [if_neg hn] at hrb
          exact (congrArg (fun z => z.2.2) hrb).symm.trans rfl
      subst herr
      dsimp only
      have hshape := rawBranchCore_events_shape (floorTo4 v.videoWidth)
        (floorTo4 v.videoHeight) (floorTo4 cv.width) (floorTo4 cv.height) r
      rw [hrb] at hshape
      dsimp only at hshape
      have hd1 : r1.device = r.device := by
        have := rawBranchCore_device (floorTo4 v.videoWidth) (floorTo4 v.videoHeight)
          (floorTo4 cv.width) (floorTo4 cv.height) r
        rw [hrb] at this
        exact this
      have ho1 : r1.option = r.option := by
        have := rawBranchCore_option (floorTo4 v.videoWidth) (floorTo4 v.videoHeight)
          (floorTo4 cv.width) (floorTo4 cv.height) r
        rw [hrb] at this
        exact this
      have hc1 : r1.canvas = r.canvas := by
        have := rawBranchCore_canvas (floorTo4 v.videoWidth) (floorTo4 v.videoHeight)
          (floorTo4 cv.width) (floorTo4 cv.height) r
        rw [hrb] at this
        exact this
      refine ⟨rfl, hd1.trans hdev, ho1, hc1.trans hcv, ?_, ?_⟩
      · intro hmem
        rw [List.mem_append] at hmem
        rcases hmem with hmem | hmem
        · rcases hshape _ hmem with ⟨i, hi⟩ | ⟨i, hi⟩ <;> exact Emitted.noConfusion hi
        · exact catchEvents_no_destroyed msg hmem
      · rw [List.mem_append]
        constructor
        · rintro (hmem | hmem)
          · rcases hshape _ hmem with ⟨i, hi⟩ | ⟨i, hi⟩ <;> exact absurd hi (by simp)
          · exact (catchEvents_logError_mem msg).mp hmem
        · intro hrhs
          exact Or.inr ((catchEvents_logError_mem msg).mpr hrhs)
    · rw [if_neg hraw]
      dsimp only
      refine ⟨rfl, hdev, rfl, hcv, ?_, ?_⟩
      · intro hmem
        rcases List.mem_append.mp hmem with hmem | hmem
        · simp at hmem
        · exact catchEvents_no_destroyed msg hmem
      · rw [List.mem_append]
        constructor
        · rintro (hmem | hmem)
          · simp at hmem
          · exact (catchEvents_logError_mem msg).mp hmem
        · intro hrhs
          exact Or.inr ((catchEvents_logError_mem msg).mpr hrhs)

/-! ### Concrete states used by witnesses and counterexamples -/

/-- A platform environment with GPU support, at time 0. -/
def env0 : InitEnv :=
  { gpuSupported := true, now := 0 }

/-- State hint: mini-player active. -/
def hintMini : StateHint :=
  { isMiniPlayer := true, isPip := false, seeking := false }

/-- State hint: seeking only. -/
def hintSeek : StateHint :=
  { isMiniPlayer := false, isPip := false, seeking := true }

/-- State hint: no flag set. -/
def hintIdle : StateHint :=
  { isMiniPlayer := false, isPip := false, seeking := false }

/-- A demo side in the Rendering state with the given option. -/
def demoSide (o : Anime4KOption) : SideRes :=
  { option := o, canvas := some { width := 640, height := 360, visible := true },
    device := some 0, context := some 1, canvasFormat := some strPreferredFormat,
    renderLoopId := some 2, cachedResources := none, abortController := some 3,
    initialized := true, live := [], nextId := 4 }

/-- A demo manager rendering `mode-a`. -/
def demoOn : MState :=
  { side := demoSide optModeA, frameDrop := mInit.frameDrop, boxSize := (640, 360) }

/-- A demo manager rendering the raw `cnn-2x-medium` mode. -/
def demoRaw : MState :=
  { side := demoSide optCnn2xM, frameDrop := mInit.frameDrop, boxSize := (640, 360) }

/-- An unrecognized option string. -/
def bogusOpt : Anime4KOption := "bogus"

/-- A demo manager whose current option is unrecognized. -/
def demoBogus : MState :=
  { side := demoSide bogusOpt, frameDrop := mInit.frameDrop, boxSize := (640, 360) }

/-- A playing, decodable video. -/
def vidPlaying : VideoState :=
  { paused := false, seeking := false, readyState := 4,
    videoWidth := 640, videoHeight := 360 }

/-! ### Claims -/

/-- C4: for every number `p`, programmatic `setDividerPosition p` stores
`clamp(p, 0, 100)` — so `setDividerPosition (-10)` yields 0 and
`setDividerPosition 150` yields 100 — while the interactive drag handler
(`handlePointerMove`) only ever reports positions in `[5, 95]`, regardless of
the pointer's x coordinate. -/
theorem C4_divider_clamp :
    (∀ (p : ℚ) (s : CState),
      getDividerPosition (setDividerPosition p s) = max 0 (min 100 p)) ∧
      getDividerPosition (setDividerPosition (-10) cInit) = 0 ∧
      getDividerPosition (setDividerPosition 150 cInit) = 100 ∧
      (∀ clientX rectLeft rectWidth : ℚ,
        5 ≤ handlePointerMove clientX rectLeft rectWidth ∧
          handlePointerMove clientX rectLeft rectWidth ≤ 95) := by
  refine ⟨fun p s => rfl, ?_, ?_, fun clientX rectLeft rectWidth => ?_⟩
  · norm_num [getDividerPosition, setDividerPosition]
  · norm_num [getDividerPosition, setDividerPosition]
  · unfold handlePointerMove
    exact ⟨le_max_left _ _, max_le (by norm_num) (min_le_left _ _)⟩

/-- C9: `destroy()` / `_destroySide` are idempotent on manager state and
callable from any state (including a never-initialized manager): a second
call leaves every field unchanged, the destroyed state has canvas, context,
device and cached resources all null and frame-drop counters zeroed, and each
`destroy()` call dispatches a `destroyed` event. -/
theorem C9_destroy_idempotent :
    (∀ s : MState, (destroy (destroy s).1).1 = (destroy s).1) ∧
      (∀ s : MState, Emitted.destroyedEvent ∈ (destroy s).2) ∧
      (∀ s : MState,
        (destroy s).1.side.canvas = none ∧ (destroy s).1.side.context = none ∧
          (destroy s).1.side.device = none ∧
          (destroy s).1.side.cachedResources = none ∧
          (destroy s).1.frameDrop.frameDropCount = 0 ∧
          (destroy s).1.frameDrop.lastFrameTime = 0) ∧
      (destroy mInit).2 = [Emitted.destroyedEvent] ∧
      (∀ (tag : SideTag) (s : CState),
        (destroySideC tag (destroySideC tag s).1).1 = (destroySideC tag s).1) ∧
      (∀ s : CState,
        (comparisonDestroy (comparisonDestroy s).1).1 = (comparisonDestroy s).1 ∧
          Emitted.destroyedEvent ∈ (comparisonDestroy s).2) := by
  refine ⟨fun s => rfl, fun s => ?_, fun s => ⟨rfl, rfl, rfl, rfl, rfl, rfl⟩, rfl,
    fun tag s => ?_, fun s => ⟨rfl, ?_⟩⟩
  · unfold destroy destroyCore
    dsimp only
    cases s.side.cachedResources <;> simp
  · cases tag <;> rfl
  · unfold comparisonDestroy
    dsimp only
    simp

/-- C10: `setOption` records the requested option as the current option
before dispatching on the state hint or box size: after any call that
performs no initialization (box size zero, or a hide/destroy hint),
`getCurrentOption` nevertheless returns the requested option. -/
theorem C10_option_recorded_first (s : MState) (o : Anime4KOption)
    (hint : Option StateHint) (env : InitEnv)
    (hcond : (s.boxSize.1 = 0 ∨ s.boxSize.2 = 0) ∨
      (∃ st, hint = some st ∧
        (st.isMiniPlayer = true ∨ st.isPip = true ∨ st.seeking = true))) :
    getCurrentOption (setOption o hint env s).1 = o := by
  rcases hcond with hbox | ⟨st, hsteq, hflag⟩
  · unfold setOption
    dsimp only
    by_cases hfirst : s.side.option ≠ o ∧ o = optOff
    · rw [if_pos hfirst]
      exact destroy_side_option _
    · rw [if_neg hfirst]
      cases hint with
      | none =>
        dsimp only
        rw [setOptionMain_boxZero o s.side.option env
          ({ s with side := { s.side with option := o } }) hbox]
        rfl
      | some st2 =>
        dsimp only
        by_cases h2 : st2.isMiniPlayer = true ∨ st2.isPip = true
        · rw [if_pos h2]
          by_cases h3 : s.side.option ≠ optOff
          · rw [if_pos h3]
            exact destroy_side_option _
          · rw [if_neg h3]
            rfl
        · rw [if_neg h2]
          by_cases h4 : st2.seeking = true
          · rw [if_pos h4]
            exact hideCanvas_option _
          · rw [if_neg h4]
            rw [setOptionMain_boxZero o s.side.option env
              ({ s with side := { s.side with option := o } }) hbox]
            rfl
  · subst hsteq
    unfold setOption
    dsimp only
    by_cases hfirst : s.side.option ≠ o ∧ o = optOff
    · rw [if_pos hfirst]
      exact destroy_side_option _
    · rw [if_neg hfirst]
      by_cases h2 : st.isMiniPlayer = true ∨ st.isPip = true
      · rw [if_pos h2]
        by_cases h3 : s.side.option ≠ optOff
        · rw [if_pos h3]
          exact destroy_side_option _
        · rw [if_neg h3]
          rfl
      · rw [if_neg h2]
        have h4 : st.seeking = true := by
          rcases hflag with hf | hf | hf
          · exact absurd (Or.inl hf) h2
          · exact absurd (Or.inr hf) h2
          · exact hf
        rw [if_pos h4]
        exact hideCanvas_option _

/-- C10 witness: a call on a fresh manager (box size zero) with a mini-player
hint performs no initialization, yet the reported option is the requested
one. -/
theorem C10_witness :
    getCurrentOption (setOption optModeA (some hintMini) env0 mInit).1 = optModeA :=
  C10_option_recorded_first mInit optModeA (some hintMini) env0 (Or.inl (Or.inl rfl))

/-- C2 counterexample: on a fresh manager (previous option `off`), selecting a
non-off option with a mini-player hint performs no destroy at all — no
`destroyed` event is dispatched and the call has no effect beyond recording
the option — refuting the claim that mini-player/PiP always yields a full
destroy as a function of the hint alone. -/
theorem C2_counterexample :
    (setOption optModeA (some hintMini) env0 mInit).2 = [] ∧
      Emitted.destroyedEvent ∉ (setOption optModeA (some hintMini) env0 mInit).2 ∧
      (setOption optModeA (some hintMini) env0 mInit).1 =
        { mInit with side := { mInit.side with option := optModeA } } := by
  have h : (setOption optModeA (some hintMini) env0 mInit).2 = [] := rfl
  refine ⟨h, ?_, rfl⟩
  rw [h]
  exact List.not_mem_nil _

/-- C2 (amended): with a non-off option and a state hint, mini-player or PiP
yields a full destroy exactly when the previous option was not `off` (a
fresh/off manager only records the option); seeking alone only hides the
canvas; a hint with no flag set behaves as the normal no-hint path.  The
comparison manager destroys or hides unconditionally on the same flags. -/
theorem C2_state_hint_dispatch :
    (∀ (s : MState) (o : Anime4KOption) (st : StateHint) (env : InitEnv),
      o ≠ optOff → st.isMiniPlayer = true ∨ st.isPip = true →
      s.side.option ≠ optOff →
      setOption o (some st) env s =
        destroy { s with side := { s.side with option := o } }) ∧
      (∀ (s : MState) (o : Anime4KOption) (st : StateHint) (env : InitEnv),
        o ≠ optOff → st.isMiniPlayer = true ∨ st.isPip = true →
        s.side.option = optOff →
        setOption o (some st) env s =
          ({ s with side := { s.side with option := o } }, [])) ∧
      (∀ (s : MState) (o : Anime4KOption) (st : StateHint) (env : InitEnv),
        o ≠ optOff → st.isMiniPlayer = false → st.isPip = false →
        st.seeking = true →
        setOption o (some st) env s =
          (hideCanvas { s with side := { s.side with option := o } }, [])) ∧
      (∀ (s : MState) (o : Anime4KOption) (st : StateHint) (env : InitEnv),
        st.isMiniPlayer = false → st.isPip = false → st.seeking = false →
        setOption o (some st) env s = setOption o none env s) ∧
      (∀ (s : CState) (l r : Anime4KOption) (st : StateHint) (env : InitEnv),
        st.isMiniPlayer = true ∨ st.isPip = true →
        setOptions l r (some st) env s = comparisonDestroy s) ∧
      (∀ (s : CState) (l r : Anime4KOption) (st : StateHint) (env : InitEnv),
        st.isMiniPlayer = false → st.isPip = false → st.seeking = true →
        setOptions l r (some st) env s = (hideCanvases s, [])) := by
  refine ⟨?_, ?_, ?_, ?_, ?_, ?_⟩
  · intro s o st env ho hmp hprev
    exact setOption_mini o st env s ho hmp hprev
  · intro s o st env ho hmp hprev
    exact setOption_mini_fresh o st env s ho hmp hprev
  · intro s o st env ho hm hp hsk
    exact setOption_seeking o st env s (fun hh => ho hh.2) hm hp hsk
  · intro s o st env hm hp hsk
    exact setOption_noFlags o st env s hm hp hsk
  · intro s l r st env hmp
    unfold setOptions
    dsimp only
    rw [if_pos hmp]
  · intro s l r st env hm hp hsk
    unfold setOptions
    dsimp only
    rw [if_neg (by simp [hm, hp]), if_pos hsk]

/-- C2 witness: the dispatch equations at concrete states — destroy from a
rendering manager, record-only from a fresh one, hide on seeking, and the
no-flag hint behaving as the plain path. -/
theorem C2_witness :
    setOption optModeB (some hintMini) env0 demoOn =
        destroy { demoOn with side := { demoOn.side with option := optModeB } } ∧
      setOption optModeA (some hintMini) env0 mInit =
        ({ mInit with side := { mInit.side with option := optModeA } }, []) ∧
      setOption optModeA (some hintSeek) env0 demoOn =
        (hideCanvas { demoOn with side := { demoOn.side with option := optModeA } }, []) ∧
      setOption optModeA (some hintIdle) env0 demoOn =
        setOption optModeA none env0 demoOn ∧
      setOptions optModeA optModeB (some hintMini) env0 cInit =
        comparisonDestroy cInit ∧
      setOptions optModeA optModeB (some hintSeek) env0 cInit =
        (hideCanvases cInit, []) :=
  ⟨C2_state_hint_dispatch.1 demoOn optModeB hintMini env0 (by decide)
      (Or.inl rfl) (by decide),
    C2_state_hint_dispatch.2.1 mInit optModeA hintMini env0 (by decide)
      (Or.inl rfl) rfl,
    C2_state_hint_dispatch.2.2.1 demoOn optModeA hintSeek env0 (by decide)
      rfl rfl rfl,
    C2_state_hint_dispatch.2.2.2.1 demoOn optModeA hintIdle env0 rfl rfl rfl,
    C2_state_hint_dispatch.2.2.2.2.1 cInit optModeA optModeB hintMini env0
      (Or.inl rfl),
    C2_state_hint_dispatch.2.2.2.2.2 cInit optModeA optModeB hintSeek env0
      rfl rfl rfl⟩

/-- C8: from the Rendering state, a seek-start call (`seeking` true) followed
by a seek-end call with the same option and no blocking state leaves every
GPU resource of the session (device, context, canvas format, cached upscaler
textures) unchanged — indeed the whole manager state returns byte-for-byte to
the original — and only the canvas display visibility is toggled off and back
on; neither call emits any event. -/
theorem C8_seek_roundtrip (s : MState) (o : Anime4KOption) (env1 env2 : InitEnv)
    (cv : Canvas) (hopt : s.side.option = o) (ho : o ≠ optOff)
    (hcv : s.side.canvas = some cv) (hvis : cv.visible = true)
    (hb1 : s.boxSize.1 ≠ 0) (hb2 : s.boxSize.2 ≠ 0) :
    (setOption o (some hintSeek) env1 s).1 =
        { s with side := { s.side with canvas := some { cv with visible := false } } } ∧
      (setOption o (some hintSeek) env1 s).1.side.device = s.side.device ∧
      (setOption o (some hintSeek) env1 s).1.side.context = s.side.context ∧
      (setOption o (some hintSeek) env1 s).1.side.canvasFormat = s.side.canvasFormat ∧
      (setOption o (some hintSeek) env1 s).1.side.cachedResources = s.side.cachedResources ∧
      (setOption o (some hintSeek) env1 s).2 = [] ∧
      (setOption o (some hintIdle) env2 (setOption o (some hintSeek) env1 s).1).1 = s ∧
      (setOption o (some hintIdle) env2 (setOption o (some hintSeek) env1 s).1).2 = [] := by
  obtain ⟨cw, ch, cvis⟩ := cv
  dsimp only at hvis
  subst hvis
  have hfirst : ¬(s.side.option ≠ o ∧ o = optOff) := fun hh => hh.1 hopt
  have hs1 : ({ s with side := { s.side with option := o } } : MState) = s := by
    rw [← hopt]
  have e1 : setOption o (some hintSeek) env1 s = (hideCanvas s, []) := by
    rw [setOption_seeking o hintSeek env1 s hfirst rfl rfl rfl, hs1]
  have hHide : hideCanvas s =
      { s with side :=
          { s.side with canvas := some (Canvas.mk cw ch false) } } := by
    unfold hideCanvas
    rw [hcv]
  have hXopt : ({ s with side :=
      { s.side with canvas := some (Canvas.mk cw ch false) } } : MState).side.option = o :=
    hopt
  have hfirstX : ¬(({ s with side :=
      { s.side with canvas := some (Canvas.mk cw ch false) } } : MState).side.option ≠ o ∧
        o = optOff) := fun hh => hh.1 hXopt
  have hsX : ({ s with side :=
      { s.side with option := o, canvas := some (Canvas.mk cw ch false) } } : MState) =
      { s with side := { s.side with canvas := some (Canvas.mk cw ch false) } } := by
    rw [← hopt]
  have e2 : setOption o (some hintIdle) env2
      ({ s with side := { s.side with canvas := some (Canvas.mk cw ch false) } }) =
      (showCanvas
        ({ s with side := { s.side with canvas := some (Canvas.mk cw ch false) } }), []) := by
    rw [setOption_noFlags o hintIdle env2 _ rfl rfl rfl]
    unfold setOption
    dsimp only
    rw [if_neg hfirstX]
    rw [setOptionMain_show o _ env2
      ({ s with side :=
        { s.side with option := o, canvas := some (Canvas.mk cw ch false) } })
      (fun hh => hh.elim hb1 hb2) ⟨rfl, rfl⟩]
    rw [hsX]
  have e3 : showCanvas
      ({ s with side := { s.side with canvas := some (Canvas.mk cw ch false) } }) = s := by
    unfold showCanvas
    dsimp only
    rw [← hcv]
  rw [e1]
  dsimp only
  rw [hHide, e2]
  dsimp only
  rw [e3]
  exact ⟨rfl, rfl, rfl, rfl, rfl, rfl, rfl, rfl⟩

/-- C8 witness: the round trip at a concrete rendering manager. -/
theorem C8_witness :
    (setOption optModeA (some hintSeek) env0 demoOn).1 =
        { demoOn with side :=
            { demoOn.side with
                canvas := some { width := 640, height := 360, visible := false } } } ∧
      (setOption optModeA (some hintSeek) env0 demoOn).1.side.device = demoOn.side.device ∧
      (setOption optModeA (some hintSeek) env0 demoOn).1.side.context = demoOn.side.context ∧
      (setOption optModeA (some hintSeek) env0 demoOn).1.side.canvasFormat =
        demoOn.side.canvasFormat ∧
      (setOption optModeA (some hintSeek) env0 demoOn).1.side.cachedResources =
        demoOn.side.cachedResources ∧
      (setOption optModeA (some hintSeek) env0 demoOn).2 = [] ∧
      (setOption optModeA (some hintIdle) env0
        (setOption optModeA (some hintSeek) env0 demoOn).1).1 = demoOn ∧
      (setOption optModeA (some hintIdle) env0
        (setOption optModeA (some hintSeek) env0 demoOn).1).2 = [] :=
  C8_seek_roundtrip demoOn optModeA env0 env0
    { width := 640, height := 360, visible := true } rfl (by decide) rfl rfl
    (by decide) (by decide)

theorem cachedLive_length (c : Option CachedRes) : (cachedLive c).length ≤ 1 := by
  cases c <;> simp [cachedLive]

/-- A demo cache record. -/
def demoCachedRes : CachedRes :=
  { inputTexture := 7, upscalerPipeline := PipelineKind.cnnx2M,
    downscalePipeline := PipelineKind.downscale, nativeWidth := 640,
    nativeHeight := 360, targetWidth := 640, targetHeight := 360 }

/-- A demo raw-mode side holding a cached input texture. -/
def demoCachedSide : SideRes :=
  { demoSide optCnn2xM with cachedResources := some demoCachedRes, live := [7] }

/-- C1: along every sequence of `setOption`/`setOptions` calls, resize events,
governor ticks and render ticks, each active side holds at most one live
cached raw-upscaler input texture; on a dimension mismatch the render loop
destroys the old input texture before creating the replacement; and
`destroy`/`_destroySide` destroy the cached input texture before dropping the
record. -/
theorem C1_cache_at_most_one_texture :
    (∀ s : MState, Reachable s → s.side.live.length ≤ 1) ∧
      (∀ s : CState, CReachable s →
        s.left.live.length ≤ 1 ∧ s.right.live.length ≤ 1) ∧
      (∀ (r : SideRes) (c : CachedRes) (nw nh tw th : Nat),
        r.cachedResources = some c →
        needsRecreate (some c) nw nh tw th = true →
        (rawBranchCore nw nh tw th r).2.1 =
          [Emitted.texDestroyed c.inputTexture, Emitted.texCreated r.nextId]) ∧
      (∀ (r : SideRes) (c : CachedRes), r.cachedResources = some c →
        (destroyCore r).2 = [Emitted.texDestroyed c.inputTexture] ∧
          (destroyCore r).1.cachedResources = none) := by
  refine ⟨?_, ?_, ?_, ?_⟩
  · intro s hr
    have h2 : s.side.live = cachedLive s.side.cachedResources := reachable_inv hr
    rw [h2]
    exact cachedLive_length _
  · intro s hr
    have h2 := creachable_cinv hr
    have hl : s.left.live = cachedLive s.left.cachedResources := h2.1
    have hrr : s.right.live = cachedLive s.right.cachedResources := h2.2
    rw [hl, hrr]
    exact ⟨cachedLive_length _, cachedLive_length _⟩
  · intro r c nw nh tw th hcached hn
    unfold rawBranchCore
    rw [hcached, if_pos hn]
    dsimp only
    cases createRawUpscalerPipeline r.option <;> rfl
  · intro r c hcached
    unfold destroyCore
    rw [hcached]
    exact ⟨rfl, rfl⟩

/-- C1 witness: the bound at concrete reachable states (a raw session after a
resize, option selection and a render tick; the fresh comparison manager
after an option change), the destroy-before-create event order at a concrete
mismatched cache, and the teardown of a concrete cached side. -/
theorem C1_witness :
    ((stepEv (Event.tickEv vidPlaying FrameOutcome.ok)
        (stepEv (Event.setOpt optCnn2xM none env0)
          (stepEv (Event.resizeEv 640 360) mInit).1).1).1).side.live.length ≤ 1 ∧
      ((cStep (CEvent.setOpts optOff optCnn2xM none env0)
        (cStep (CEvent.resizeCEv 640 360) cInit).1).1).left.live.length ≤ 1 ∧
      ((cStep (CEvent.setOpts optOff optCnn2xM none env0)
        (cStep (CEvent.resizeCEv 640 360) cInit).1).1).right.live.length ≤ 1 ∧
      (rawBranchCore 8 8 8 8 demoCachedSide).2.1 =
        [Emitted.texDestroyed 7, Emitted.texCreated 4] ∧
      (destroyCore demoCachedSide).2 = [Emitted.texDestroyed 7] ∧
      (destroyCore demoCachedSide).1.cachedResources = none := by
  refine ⟨C1_cache_at_most_one_texture.1 _
      (Reachable.next _ (Reachable.next _ (Reachable.next _ Reachable.init))),
    (C1_cache_at_most_one_texture.2.1 _
      (CReachable.next _ (CReachable.next _ CReachable.init))).1,
    (C1_cache_at_most_one_texture.2.1 _
      (CReachable.next _ (CReachable.next _ CReachable.init))).2,
    C1_cache_at_most_one_texture.2.2.1 demoCachedSide demoCachedRes 8 8 8 8 rfl
      (by decide),
    (C1_cache_at_most_one_texture.2.2.2 demoCachedSide demoCachedRes rfl).1,
    (C1_cache_at_most_one_texture.2.2.2 demoCachedSide demoCachedRes rfl).2⟩

theorem preset_not_raw : ∀ o ∈ presetOptions, isRawUpscaler o = false := by
  decide

/-- Reduction of a successful render tick past its not-ready guards. -/
theorem tickCore_ok_reduce (r : SideRes) (v : VideoState) (cv : Canvas)
    (d x : Nat) (f : String)
    (hdev : r.device = some d) (hctx : r.context = some x)
    (hcv : r.canvas = some cv) (hfmt : r.canvasFormat = some f)
    (hcw : cv.width ≠ 0) (hch : cv.height ≠ 0)
    (hpa : v.paused = false) (hse : v.seeking = false) (hrs : 2 ≤ v.readyState)
    (hvw : v.videoWidth ≠ 0) (hvh : v.videoHeight ≠ 0) :
    tickCore v FrameOutcome.ok r =
      tickBody FrameOutcome.ok (floorTo4 v.videoWidth) (floorTo4 v.videoHeight)
        (floorTo4 cv.width) (floorTo4 cv.height) r := by
  have hplay : ¬(v.paused = true ∨ v.seeking = true ∨ v.readyState < 2) := by
    rintro (hh | hh | hh)
    · rw [hpa] at hh
      exact Bool.false_ne_true hh
    · rw [hse] at hh
      exact Bool.false_ne_true hh
    · exact absurd hrs (not_le.mpr hh)
  have hdims : ¬(v.videoWidth = 0 ∨ v.videoHeight = 0 ∨ cv.width = 0 ∨ cv.height = 0) := by
    rintro (hh | hh | hh | hh)
    · exact hvw hh
    · exact hvh hh
    · exact hcw hh
    · exact hch hh
  unfold tickCore
  rw [hdev, hctx, hcv, hfmt]
  dsimp only
  rw [if_neg hplay, if_neg hdims]

/-- C5: each of the six raw-mode options is classified raw and each of the
six preset-mode options preset; a raw-option tick takes the cached path
(creating the persistent input texture when the cache is empty); a
preset-option tick takes the direct path (one preset pipeline pass, cache
untouched); and a reachable manager whose option is `off` performs nothing on
a render tick (the loop never runs with `off`). -/
theorem C5_option_routing :
    (∀ o ∈ rawOptions, isRawUpscaler o = true) ∧
      (∀ o ∈ presetOptions, isRawUpscaler o = false) ∧
      isRawUpscaler optOff = false ∧
      (∀ (s : MState) (v : VideoState) (cv : Canvas) (d x : Nat) (f : String),
        s.side.device = some d → s.side.context = some x →
        s.side.canvas = some cv → s.side.canvasFormat = some f →
        cv.width ≠ 0 → cv.height ≠ 0 → v.paused = false → v.seeking = false →
        2 ≤ v.readyState → v.videoWidth ≠ 0 → v.videoHeight ≠ 0 →
        isRawUpscaler s.side.option = true → s.side.cachedResources = none →
        Emitted.texCreated s.side.nextId ∈ (renderFrame v FrameOutcome.ok s).2) ∧
      (∀ (s : MState) (v : VideoState) (cv : Canvas) (d x : Nat) (f : String),
        s.side.device = some d → s.side.context = some x →
        s.side.canvas = some cv → s.side.canvasFormat = some f →
        cv.width ≠ 0 → cv.height ≠ 0 → v.paused = false → v.seeking = false →
        2 ≤ v.readyState → v.videoWidth ≠ 0 → v.videoHeight ≠ 0 →
        s.side.option ∈ presetOptions →
        (renderFrame v FrameOutcome.ok s).2 =
            [Emitted.presetPass (createPipeline s.side.option)] ∧
          (renderFrame v FrameOutcome.ok s).1.side.cachedResources =
            s.side.cachedResources) ∧
      (∀ s : MState, Reachable s → s.side.option = optOff →
        ∀ (v : VideoState) (oc : FrameOutcome), renderFrame v oc s = (s, [])) := by
  refine ⟨by decide, preset_not_raw, rfl, ?_, ?_, ?_⟩
  · intro s v cv d x f hdev hctx hcv hfmt hcw hch hpa hse hrs hvw hvh hraw hcache
    show Emitted.texCreated s.side.nextId ∈ (tickCore v FrameOutcome.ok s.side).2
    rw [tickCore_ok_reduce s.side v cv d x f hdev hctx hcv hfmt hcw hch hpa hse
      hrs hvw hvh]
    unfold tickBody
    rw [if_pos hraw]
    unfold rawBranchCore
    rw [hcache]
    simp only [needsRecreate]
    rw [if_pos trivial]
    obtain ⟨k, hk⟩ := rawOk s.side.option hraw
    rw [hk]
    simp
  · intro s v cv d x f hdev hctx hcv hfmt hcw hch hpa hse hrs hvw hvh hmem
    have hrawf : isRawUpscaler s.side.option = false := preset_not_raw _ hmem
    have ht := tickCore_ok_reduce s.side v cv d x f hdev hctx hcv hfmt hcw hch
      hpa hse hrs hvw hvh
    constructor
    · show (tickCore v FrameOutcome.ok s.side).2 = _
      rw [ht]
      unfold tickBody
      rw [if_neg (fun hh => Bool.false_ne_true (hrawf ▸ hh))]
    · show (tickCore v FrameOutcome.ok s.side).1.cachedResources = _
      rw [ht]
      unfold tickBody
      rw [if_neg (fun hh => Bool.false_ne_true (hrawf ▸ hh))]
      rfl
  · intro s hr hoff v oc
    exact renderFrame_noDevice v oc s (reachable_inv2 hr hoff)

/-- C5 witness: routing at concrete states — the raw demo session creates its
cached input texture on the first tick, the preset demo session runs one
`ModeA` pass without touching the cache, and the fresh (off) manager's tick
is a no-op. -/
theorem C5_witness :
    isRawUpscaler optCnn2xM = true ∧
      isRawUpscaler optModeA = false ∧
      Emitted.texCreated 4 ∈ (renderFrame vidPlaying FrameOutcome.ok demoRaw).2 ∧
      (renderFrame vidPlaying FrameOutcome.ok demoOn).2 =
        [Emitted.presetPass (createPipeline optModeA)] ∧
      (renderFrame vidPlaying FrameOutcome.ok demoOn).1.side.cachedResources =
        demoOn.side.cachedResources ∧
      renderFrame vidPlaying FrameOutcome.ok mInit = (mInit, []) :=
  ⟨C5_option_routing.1 optCnn2xM (by decide),
    C5_option_routing.2.1 optModeA (by decide),
    C5_option_routing.2.2.2.1 demoRaw vidPlaying
      { width := 640, height := 360, visible := true } 0 1 strPreferredFormat
      rfl rfl rfl rfl (by decide) (by decide) rfl rfl (by decide) (by decide)
      (by decide) (by decide) rfl,
    (C5_option_routing.2.2.2.2.1 demoOn vidPlaying
      { width := 640, height := 360, visible := true } 0 1 strPreferredFormat
      rfl rfl rfl rfl (by decide) (by decide) rfl rfl (by decide) (by decide)
      (by decide) (by decide)).1,
    (C5_option_routing.2.2.2.2.1 demoOn vidPlaying
      { width := 640, height := 360, visible := true } 0 1 strPreferredFormat
      rfl rfl rfl rfl (by decide) (by decide) rfl rfl (by decide) (by decide)
      (by decide) (by decide)).2,
    C5_option_routing.2.2.2.2.2 mInit Reachable.init rfl vidPlaying
      FrameOutcome.ok⟩

/-- C6 counterexample: an unrecognized option value (`"bogus"`) never reaches
the raw-pipeline constructor during rendering — the `isRawUpscaler` guard
routes it to the preset branch, which silently falls back to a `ModeA`
pipeline: the tick produces exactly one preset pass and no error event, no
fallback callback and no destroyed event, and the current option stays
`"bogus"` instead of falling back to `off`, although the raw constructor
would indeed throw on it.  This refutes the claimed propagation to the
initialize-sequence catch with a user-facing error and fallback-to-off. -/
theorem C6_counterexample :
    createRawUpscalerPipeline bogusOpt = Except.error (strUnknownRaw ++ bogusOpt) ∧
      isRawUpscaler bogusOpt = false ∧
      (renderFrame vidPlaying FrameOutcome.ok demoBogus).2 =
        [Emitted.presetPass PipelineKind.modeA] ∧
      (renderFrame vidPlaying FrameOutcome.ok demoBogus).1.side.option = bogusOpt ∧
      bogusOpt ≠ optOff := by
  refine ⟨rfl, rfl, ?_, rfl, by decide⟩
  rfl

/-- C6 (amended): the raw-pipeline constructor does throw synchronously on an
unrecognized option, but it is only ever invoked under the raw-option guard,
which never passes for an unrecognized value, so the throw is unreachable:
in the per-frame path an unknown option takes the preset branch (falling back
to the `ModeA` constructor) with no error notification and no fallback to
`off`; and had an error been raised inside a render tick, it would be handled
by the per-tick catch (logged when unexpected, loop rescheduled), not by the
initialize-sequence catch. -/
theorem C6_unknown_option_behaviour :
    (∀ o : Anime4KOption, isRawUpscaler o = false →
      createRawUpscalerPipeline o = Except.error (strUnknownRaw ++ o)) ∧
      (∀ o : Anime4KOption, isRawUpscaler o = true →
        ∃ k, createRawUpscalerPipeline o = Except.ok k) ∧
      (∀ (s : MState) (v : VideoState) (cv : Canvas) (d x : Nat) (f : String),
        s.side.device = some d → s.side.context = some x →
        s.side.canvas = some cv → s.side.canvasFormat = some f →
        cv.width ≠ 0 → cv.height ≠ 0 → v.paused = false → v.seeking = false →
        2 ≤ v.readyState → v.videoWidth ≠ 0 → v.videoHeight ≠ 0 →
        isRawUpscaler s.side.option = false →
        (renderFrame v FrameOutcome.ok s).2 =
            [Emitted.presetPass (createPipeline s.side.option)] ∧
          (renderFrame v FrameOutcome.ok s).1.side.option = s.side.option) ∧
      (∀ msg : String, strIncludes msg strDestroyed = false →
        strIncludes msg strLost = false →
        catchEvents msg = [Emitted.logError (strRenderFrameError ++ msg)]) := by
  refine ⟨?_, rawOk, ?_, ?_⟩
  · intro o hraw
    have hm : o ∉ rawOptions := by
      intro hmem
      rw [show isRawUpscaler o = true by simpa [isRawUpscaler] using hmem] at hraw
      exact Bool.false_ne_true hraw.symm
    simp only [rawOptions, List.mem_cons, List.not_mem_nil, or_false, not_or] at hm
    obtain ⟨h1, h2, h3, h4, h5, h6⟩ := hm
    unfold createRawUpscalerPipeline
    rw [if_neg h1, if_neg h2, if_neg h3, if_neg h4, if_neg h5, if_neg h6]
  · intro s v cv d x f hdev hctx hcv hfmt hcw hch hpa hse hrs hvw hvh hrawf
    have ht := tickCore_ok_reduce s.side v cv d x f hdev hctx hcv hfmt hcw hch
      hpa hse hrs hvw hvh
    constructor
    · show (tickCore v FrameOutcome.ok s.side).2 = _
      rw [ht]
      unfold tickBody
      rw [if_neg (fun hh => Bool.false_ne_true (hrawf ▸ hh))]
    · show (tickCore v FrameOutcome.ok s.side).1.option = _
      rw [ht]
      unfold tickBody
      rw [if_neg (fun hh => Bool.false_ne_true (hrawf ▸ hh))]
      rfl
  · intro msg h1 h2
    unfold catchEvents
    rw [if_neg ?_]
    rintro (hc | hc)
    · rw [h1] at hc
      exact Bool.false_ne_true hc
    · rw [h2] at hc
      exact Bool.false_ne_true hc

/-- C6 witness: the amended behaviour at the concrete unknown option
`"bogus"` and at a concrete raw option. -/
theorem C6_witness :
    createRawUpscalerPipeline bogusOpt = Except.error (strUnknownRaw ++ bogusOpt) ∧
      (∃ k, createRawUpscalerPipeline optGan3xL = Except.ok k) ∧
      (renderFrame vidPlaying FrameOutcome.ok demoBogus).2 =
        [Emitted.presetPass (createPipeline bogusOpt)] ∧
      (renderFrame vidPlaying FrameOutcome.ok demoBogus).1.side.option = bogusOpt ∧
      catchEvents strWebgpuNotSupported =
        [Emitted.logError (strRenderFrameError ++ strWebgpuNotSupported)] :=
  ⟨C6_unknown_option_behaviour.1 bogusOpt rfl,
    C6_unknown_option_behaviour.2.1 optGan3xL rfl,
    (C6_unknown_option_behaviour.2.2.1 demoBogus vidPlaying
      { width := 640, height := 360, visible := true } 0 1 strPreferredFormat
      rfl rfl rfl rfl (by decide) (by decide) rfl rfl (by decide) (by decide)
      (by decide) rfl).1,
    (C6_unknown_option_behaviour.2.2.1 demoBogus vidPlaying
      { width := 640, height := 360, visible := true } 0 1 strPreferredFormat
      rfl rfl rfl rfl (by decide) (by decide) rfl rfl (by decide) (by decide)
      (by decide) rfl).2,
    C6_unknown_option_behaviour.2.2.2 strWebgpuNotSupported (by decide) (by decide)⟩

/-- C7: every exception raised inside one per-frame render iteration — at
frame import (`failEarly`) or after the pipeline work up to submission
(`failLate`) — is caught within that iteration, in both managers: the loop
reschedules itself, the device, option and canvas are untouched, no
`destroyed` event is dispatched, and the error is logged exactly when its
message mentions neither `"destroyed"` nor `"lost"`. -/
theorem C7_tick_exception_contained :
    (∀ (s : MState) (v : VideoState) (msg : String) (cv : Canvas) (d x : Nat)
        (f : String) (oc : FrameOutcome),
      s.side.device = some d → s.side.context = some x →
      s.side.canvas = some cv → s.side.canvasFormat = some f →
      cv.width ≠ 0 → cv.height ≠ 0 → v.paused = false → v.seeking = false →
      2 ≤ v.readyState → v.videoWidth ≠ 0 → v.videoHeight ≠ 0 →
      oc = FrameOutcome.failEarly msg ∨ oc = FrameOutcome.failLate msg →
      (renderFrame v oc s).1.side.renderLoopId.isSome = true ∧
        (renderFrame v oc s).1.side.device = s.side.device ∧
        (renderFrame v oc s).1.side.option = s.side.option ∧
        (renderFrame v oc s).1.side.canvas = s.side.canvas ∧
        Emitted.destroyedEvent ∉ (renderFrame v oc s).2 ∧
        ((Emitted.logError (strRenderFrameError ++ msg) ∈ (renderFrame v oc s).2) ↔
          (strIncludes msg strDestroyed = false ∧ strIncludes msg strLost = false))) ∧
      (∀ (cs : CState) (tag : SideTag) (v : VideoState) (msg : String)
          (cv : Canvas) (d x : Nat) (f : String) (oc : FrameOutcome),
        (getSide tag cs).device = some d → (getSide tag cs).context = some x →
        (getSide tag cs).canvas = some cv → (getSide tag cs).canvasFormat = some f →
        cv.width ≠ 0 → cv.height ≠ 0 → v.paused = false → v.seeking = false →
        2 ≤ v.readyState → v.videoWidth ≠ 0 → v.videoHeight ≠ 0 →
        oc = FrameOutcome.failEarly msg ∨ oc = FrameOutcome.failLate msg →
        (getSide tag (csTick tag v oc cs).1).renderLoopId.isSome = true ∧
          (getSide tag (csTick tag v oc cs).1).device = (getSide tag cs).device ∧
          (getSide tag (csTick tag v oc cs).1).option = (getSide tag cs).option ∧
          (getSide tag (csTick tag v oc cs).1).canvas = (getSide tag cs).canvas ∧
          Emitted.destroyedEvent ∉ (csTick tag v oc cs).2 ∧
          ((Emitted.logError (strRenderFrameError ++ msg) ∈ (csTick tag v oc cs).2) ↔
            (strIncludes msg strDestroyed = false ∧
              strIncludes msg strLost = false))) := by
  constructor
  · intro s v msg cv d x f oc hdev hctx hcv hfmt hcw hch hpa hse hrs hvw hvh hout
    exact tickCore_exception s.side v msg cv d x f hdev hctx hcv hfmt hcw hch
      hpa hse hrs hvw hvh oc hout
  · intro cs tag v msg cv d x f oc hdev hctx hcv hfmt hcw hch hpa hse hrs hvw
      hvh hout
    cases tag with
    | left =>
      exact tickCore_exception cs.left v msg cv d x f hdev hctx hcv hfmt hcw
        hch hpa hse hrs hvw hvh oc hout
    | right =>
      exact tickCore_exception cs.right v msg cv d x f hdev hctx hcv hfmt hcw
        hch hpa hse hrs hvw hvh oc hout

/-- An error message that mentions neither `"destroyed"` nor `"lost"`. -/
def unexpectedMsg : String := "boom"

/-- A demo comparison manager: left off, right rendering a raw mode. -/
def demoCState : CState :=
  { boxSize := (640, 360), dividerPosition := 50,
    left := freshSide optOff 0, right := demoSide optCnn2xM }

/-- C7 witness: containment at concrete failing ticks of both managers. -/
theorem C7_witness :
    ((renderFrame vidPlaying (FrameOutcome.failEarly unexpectedMsg) demoOn).1.side.renderLoopId.isSome = true ∧
        (renderFrame vidPlaying (FrameOutcome.failEarly unexpectedMsg) demoOn).1.side.device = demoOn.side.device ∧
        (renderFrame vidPlaying (FrameOutcome.failEarly unexpectedMsg) demoOn).1.side.option = demoOn.side.option ∧
        (renderFrame vidPlaying (FrameOutcome.failEarly unexpectedMsg) demoOn).1.side.canvas = demoOn.side.canvas ∧
        Emitted.destroyedEvent ∉ (renderFrame vidPlaying (FrameOutcome.failEarly unexpectedMsg) demoOn).2 ∧
        ((Emitted.logError (strRenderFrameError ++ unexpectedMsg) ∈
            (renderFrame vidPlaying (FrameOutcome.failEarly unexpectedMsg) demoOn).2) ↔
          (strIncludes unexpectedMsg strDestroyed = false ∧
            strIncludes unexpectedMsg strLost = false))) ∧
      ((getSide SideTag.right (csTick SideTag.right vidPlaying
          (FrameOutcome.failLate unexpectedMsg) demoCState).1).renderLoopId.isSome = true ∧
        (getSide SideTag.right (csTick SideTag.right vidPlaying
          (FrameOutcome.failLate unexpectedMsg) demoCState).1).device =
            (getSide SideTag.right demoCState).device ∧
        (getSide SideTag.right (csTick SideTag.right vidPlaying
          (FrameOutcome.failLate unexpectedMsg) demoCState).1).option =
            (getSide SideTag.right demoCState).option ∧
        (getSide SideTag.right (csTick SideTag.right vidPlaying
          (FrameOutcome.failLate unexpectedMsg) demoCState).1).canvas =
            (getSide SideTag.right demoCState).canvas ∧
        Emitted.destroyedEvent ∉ (csTick SideTag.right vidPlaying
          (FrameOutcome.failLate unexpectedMsg) demoCState).2 ∧
        ((Emitted.logError (strRenderFrameError ++ unexpectedMsg) ∈
            (csTick SideTag.right vidPlaying
              (FrameOutcome.failLate unexpectedMsg) demoCState).2) ↔
          (strIncludes unexpectedMsg strDestroyed = false ∧
            strIncludes unexpectedMsg strLost = false))) :=
  ⟨C7_tick_exception_contained.1 demoOn vidPlaying unexpectedMsg
      { width := 640, height := 360, visible := true } 0 1 strPreferredFormat
      (FrameOutcome.failEarly unexpectedMsg) rfl rfl rfl rfl (by decide)
      (by decide) rfl rfl (by decide) (by decide) (by decide) (Or.inl rfl),
    C7_tick_exception_contained.2 demoCState SideTag.right vidPlaying
      unexpectedMsg { width := 640, height := 360, visible := true } 0 1
      strPreferredFormat (FrameOutcome.failLate unexpectedMsg) rfl rfl rfl rfl
      (by decide) (by decide) rfl rfl (by decide) (by decide) (by decide)
      (Or.inr rfl)⟩

theorem countFallbacks_nil : countFallbacks [] = 0 := rfl

theorem govRun_cons_eq (t : ℚ) (ts : List ℚ) (env : InitEnv) (s s1 : MState)
    (e1 : List Emitted) (h : govTick t env s = (s1, e1)) :
    govRun (t :: ts) env s =
      ((govRun ts env s1).1, e1 ++ (govRun ts env s1).2) := by
  simp only [govRun, h]

/-- A governor state with explicit frame-drop fields and threshold 5. -/
def govState (sside : SideRes) (en : Bool) (cnt : Nat) (lft tft grc itm : ℚ)
    (sbox : Nat × Nat) : MState :=
  { side := sside,
    frameDrop :=
      { enabled := en, frameDropThreshold := 5, frameDropCount := cnt,
        lastFrameTime := lft, targetFrameTime := tft,
        performanceGracePeriod := grc, initTime := itm },
    boxSize := sbox }

/-- C3: after the grace period (with a previous tick recorded), a governor
tick whose elapsed time exceeds 1.5 times the target frame interval
increments the consecutive-drop counter and any other tick resets it to
zero; and from a steady post-grace state with threshold 5, any synthetic
sequence of 5 consecutive over-threshold samples drives the session to the
`off` option exactly once with exactly one fallback notification — the
first four ticks leave the option unchanged, and arbitrarily many further
ticks produce no additional fallback. -/
theorem C3_frame_drop_governor :
    (∀ (s : MState) (now : ℚ) (env : InitEnv),
      s.side.option ≠ optOff →
      s.frameDrop.performanceGracePeriod ≤ now - s.frameDrop.initTime →
      0 < s.frameDrop.lastFrameTime →
      s.frameDrop.targetFrameTime * 1.5 < now - s.frameDrop.lastFrameTime →
      s.frameDrop.frameDropCount + 1 < s.frameDrop.frameDropThreshold →
      govTick now env s =
        ({ s with
            frameDrop :=
              { s.frameDrop with
                  frameDropCount := s.frameDrop.frameDropCount + 1,
                  lastFrameTime := now } }, [])) ∧
      (∀ (s : MState) (now : ℚ) (env : InitEnv),
        s.side.option ≠ optOff →
        s.frameDrop.performanceGracePeriod ≤ now - s.frameDrop.initTime →
        0 < s.frameDrop.lastFrameTime →
        now - s.frameDrop.lastFrameTime ≤ s.frameDrop.targetFrameTime * 1.5 →
        govTick now env s =
          ({ s with
              frameDrop :=
                { s.frameDrop with frameDropCount := 0, lastFrameTime := now } },
            [])) ∧
      (∀ (s : MState) (t1 t2 t3 t4 t5 : ℚ) (env : InitEnv) (rest : List ℚ),
        s.side.option ≠ optOff →
        s.frameDrop.frameDropThreshold = 5 →
        s.frameDrop.frameDropCount = 0 →
        0 < s.frameDrop.targetFrameTime →
        0 < s.frameDrop.lastFrameTime →
        s.frameDrop.performanceGracePeriod ≤ t1 - s.frameDrop.initTime →
        s.frameDrop.targetFrameTime * 1.5 < t1 - s.frameDrop.lastFrameTime →
        s.frameDrop.targetFrameTime * 1.5 < t2 - t1 →
        s.frameDrop.targetFrameTime * 1.5 < t3 - t2 →
        s.frameDrop.targetFrameTime * 1.5 < t4 - t3 →
        s.frameDrop.targetFrameTime * 1.5 < t5 - t4 →
        countFallbacks (govRun (t1 :: t2 :: t3 :: t4 :: t5 :: rest) env s).2 = 1 ∧
          (govRun (t1 :: t2 :: t3 :: t4 :: t5 :: rest) env s).1.side.option = optOff ∧
          (govRun [t1, t2, t3, t4] env s).1.side.option = s.side.option) := by
  refine ⟨fun s now env => govTick_drop now env s,
    fun s now env => govTick_reset now env s, ?_⟩
  intro s t1 t2 t3 t4 t5 env rest h1 hthr hcnt htgt hlast hgrace hd1 hd2 hd3 hd4 hd5
  obtain ⟨sside, sfd, sbox⟩ := s
  obtain ⟨en, thr, cnt, lft, tft, grc, itm⟩ := sfd
  dsimp only at h1 hthr hcnt htgt hlast hgrace hd1 hd2 hd3 hd4 hd5 ⊢
  subst hthr
  subst hcnt
  have h15 : 0 < tft * 1.5 := by
    have h0 : (0 : ℚ) < 1.5 := by norm_num
    exact mul_pos htgt h0
  have hp1 : 0 < t1 := by linarith
  have hp2 : 0 < t2 := by linarith
  have hp3 : 0 < t3 := by linarith
  have hp4 : 0 < t4 := by linarith
  have hg2 : grc ≤ t2 - itm := by linarith
  have hg3 : grc ≤ t3 - itm := by linarith
  have hg4 : grc ≤ t4 - itm := by linarith
  have hg5 : grc ≤ t5 - itm := by linarith
  have e1 : govTick t1 env (govState sside en 0 lft tft grc itm sbox) =
      (govState sside en 1 t1 tft grc itm sbox, []) :=
    govTick_drop t1 env _ h1 hgrace hlast hd1 (by show (0 : Nat) + 1 < 5; decide)
  have e2 : govTick t2 env (govState sside en 1 t1 tft grc itm sbox) =
      (govState sside en 2 t2 tft grc itm sbox, []) :=
    govTick_drop t2 env _ h1 hg2 hp1 hd2 (by show (1 : Nat) + 1 < 5; decide)
  have e3 : govTick t3 env (govState sside en 2 t2 tft grc itm sbox) =
      (govState sside en 3 t3 tft grc itm sbox, []) :=
    govTick_drop t3 env _ h1 hg3 hp2 hd3 (by show (2 : Nat) + 1 < 5; decide)
  have e4 : govTick t4 env (govState sside en 3 t3 tft grc itm sbox) =
      (govState sside en 4 t4 tft grc itm sbox, []) :=
    govTick_drop t4 env _ h1 hg4 hp3 hd4 (by show (3 : Nat) + 1 < 5; decide)
  have e5 := govTick_fallback t5 env (govState sside en 4 t4 tft grc itm sbox)
    h1 hg5 hp4 hd5 (by show (5 : Nat) ≤ 4 + 1; decide)
  have r5 : govRun (t5 :: rest) env (govState sside en 4 t4 tft grc itm sbox) =
      ((govRun rest env
          (govTick t5 env (govState sside en 4 t4 tft grc itm sbox)).1).1,
        (govTick t5 env (govState sside en 4 t4 tft grc itm sbox)).2 ++
          (govRun rest env
            (govTick t5 env (govState sside en 4 t4 tft grc itm sbox)).1).2) :=
    govRun_cons_eq t5 rest env _ _ _ rfl
  have r6 : govRun rest env
      (govTick t5 env (govState sside en 4 t4 tft grc itm sbox)).1 =
      ((govTick t5 env (govState sside en 4 t4 tft grc itm sbox)).1, []) :=
    govRun_off rest env _ e5.1
  refine ⟨?_, ?_, ?_⟩
  · show countFallbacks (govRun (t1 :: t2 :: t3 :: t4 :: t5 :: rest) env
      (govState sside en 0 lft tft grc itm sbox)).2 = 1
    rw [govRun_cons_eq t1 (t2 :: t3 :: t4 :: t5 :: rest) env _ _ _ e1,
      govRun_cons_eq t2 (t3 :: t4 :: t5 :: rest) env _ _ _ e2,
      govRun_cons_eq t3 (t4 :: t5 :: rest) env _ _ _ e3,
      govRun_cons_eq t4 (t5 :: rest) env _ _ _ e4, r5, r6]
    dsimp only
    rw [countFallbacks_append, countFallbacks_append, countFallbacks_append,
      countFallbacks_append, countFallbacks_append, countFallbacks_nil, e5.2.2]
  · show (govRun (t1 :: t2 :: t3 :: t4 :: t5 :: rest) env
      (govState sside en 0 lft tft grc itm sbox)).1.side.option = optOff
    rw [govRun_cons_eq t1 (t2 :: t3 :: t4 :: t5 :: rest) env _ _ _ e1,
      govRun_cons_eq t2 (t3 :: t4 :: t5 :: rest) env _ _ _ e2,
      govRun_cons_eq t3 (t4 :: t5 :: rest) env _ _ _ e3,
      govRun_cons_eq t4 (t5 :: rest) env _ _ _ e4, r5, r6]
    dsimp only
    exact e5.1
  · show (govRun [t1, t2, t3, t4] env
      (govState sside en 0 lft tft grc itm sbox)).1.side.option = sside.option
    rw [govRun_cons_eq t1 [t2, t3, t4] env _ _ _ e1,
      govRun_cons_eq t2 [t3, t4] env _ _ _ e2,
      govRun_cons_eq t3 [t4] env _ _ _ e3,
      govRun_cons_eq t4 [] env _ _ _ e4]
    rfl

/-- A demo raw session for the governor, past its grace period. -/
def govDemo : MState :=
  { side := demoSide optCnn2xM,
    frameDrop :=
      { enabled := true, frameDropThreshold := 5, frameDropCount := 0,
        lastFrameTime := 1000, targetFrameTime := 1000 / 16,
        performanceGracePeriod := 1000, initTime := 0 },
    boxSize := (640, 360) }

/-- C3 witness: the drop/reset tick equations and the exactly-one-fallback
run at concrete times (target interval 62.5 ms, samples 100 ms apart). -/
theorem C3_witness :
    govTick 1100 env0 govDemo =
        ({ govDemo with
            frameDrop :=
              { govDemo.frameDrop with
                  frameDropCount := govDemo.frameDrop.frameDropCount + 1,
                  lastFrameTime := 1100 } }, []) ∧
      govTick 1050 env0 govDemo =
        ({ govDemo with
            frameDrop :=
              { govDemo.frameDrop with frameDropCount := 0, lastFrameTime := 1050 } },
          []) ∧
      countFallbacks (govRun [1100, 1200, 1300, 1400, 1500] env0 govDemo).2 = 1 ∧
      (govRun [1100, 1200, 1300, 1400, 1500] env0 govDemo).1.side.option = optOff ∧
      (govRun [1100, 1200, 1300, 1400] env0 govDemo).1.side.option =
        govDemo.side.option :=
  ⟨C3_frame_drop_governor.1 govDemo 1100 env0 (by decide) (by norm_num [govDemo])
      (by norm_num [govDemo]) (by norm_num [govDemo]) (by norm_num [govDemo]),
    C3_frame_drop_governor.2.1 govDemo 1050 env0 (by decide) (by norm_num [govDemo])
      (by norm_num [govDemo]) (by norm_num [govDemo]),
    (C3_frame_drop_governor.2.2 govDemo 1100 1200 1300 1400 1500 env0 []
      (by decide) rfl rfl (by norm_num [govDemo]) (by norm_num [govDemo])
      (by norm_num [govDemo]) (by norm_num [govDemo]) (by norm_num [govDemo])
      (by norm_num [govDemo]) (by norm_num [govDemo]) (by norm_num [govDemo])).1,
    (C3_frame_drop_governor.2.2 govDemo 1100 1200 1300 1400 1500 env0 []
      (by decide) rfl rfl (by norm_num [govDemo]) (by norm_num [govDemo])
      (by norm_num [govDemo]) (by norm_num [govDemo]) (by norm_num [govDemo])
      (by norm_num [govDemo]) (by norm_num [govDemo]) (by norm_num [govDemo])).2.1,
    (C3_frame_drop_governor.2.2 govDemo 1100 1200 1300 1400 1500 env0 []
      (by decide) rfl rfl (by norm_num [govDemo]) (by norm_num [govDemo])
      (by norm_num [govDemo]) (by norm_num [govDemo]) (by norm_num [govDemo])
      (by norm_num [govDemo]) (by norm_num [govDemo]) (by norm_num [govDemo])).2.2⟩

end A4K
